import Mathlib

/-!
Verification development for the LTTng tools event-rule subsystem.

Shallow embedding of `src/common/event-rule/tracepoint.c`,
`src/common/event-rule/event-rule.c` and the
`--event-notifier-error-number-of-bucket` option handling of
`src/bin/lttng-sessiond/main.c`.

Bytes are modelled as natural numbers (values below 256 where it matters);
C strings are modelled as lists of non-zero bytes, without their NUL
terminator.  Serialized payloads are lists of bytes; the multi-byte fields
of the packed communication structures are encoded little-endian.
-/

/-- `enum lttng_domain_type` (lttng/domain.h): NONE = 0, KERNEL = 1, UST = 2,
JUL = 3, LOG4J = 4, PYTHON = 5. -/
inductive DomainType where
  | none
  | kernel
  | ust
  | jul
  | log4j
  | python
deriving DecidableEq, Repr

/-- The domain of a constructed tracepoint event rule.
`lttng_event_rule_tracepoint_create` refuses `LTTNG_DOMAIN_NONE`, so the
`domain` field of a live `struct lttng_event_rule_tracepoint` only ever
holds one of these five values. -/
inductive TracepointDomain where
  | kernel
  | ust
  | jul
  | log4j
  | python
deriving DecidableEq, Repr

/-- The integer value of a tracepoint domain, as stored in the
`int8_t domain_type` field of `struct lttng_event_rule_tracepoint_comm`. -/
def domainByte : TracepointDomain → Nat
  | .kernel => 1
  | .ust => 2
  | .jul => 3
  | .log4j => 4
  | .python => 5

/-- `enum lttng_log_level_rule_type` sub-variants of a log level rule
(lttng/log-level-rule.h): `exactly(level)` and
`at-least-as-severe-as(level)`; the level is a C `int`. -/
inductive LogLevelRule where
  | exactly (level : Int)
  | atLeastAsSevereAs (level : Int)
deriving DecidableEq, Repr

/-- The level carried by a log level rule (both variants carry one). -/
def LogLevelRule.level : LogLevelRule → Int
  | .exactly l => l
  | .atLeastAsSevereAs l => l

/-- `enum lttng_event_rule_status` values returned by the event-rule
setters and getters. -/
inductive EventRuleStatus where
  | ok
  | error
  | unknown
  | invalid
  | unset
  | unsupported
deriving DecidableEq, Repr

/-- `struct lttng_event_rule_tracepoint`: the fields that determine the
rule's observable behaviour (the cached `internal_filter` is derived
state, produced by `generate_filter_bytecode`). A C string is a list of
non-zero bytes. -/
structure TracepointRule where
  domain : TracepointDomain
  pattern : List Nat
  filter_expression : Option (List Nat)
  log_level_rule : Option LogLevelRule
  exclusions : List (List Nat)
deriving DecidableEq, Repr

/-- `LTTNG_SYMBOL_NAME_LEN` (lttng/lttng.h). -/
def LTTNG_SYMBOL_NAME_LEN : Nat := 256

/-- `LTTNG_LOGLEVEL_EMERG` (lttng/event.h). -/
def LTTNG_LOGLEVEL_EMERG : Int := 0

/-- `LTTNG_LOGLEVEL_DEBUG` (lttng/event.h). -/
def LTTNG_LOGLEVEL_DEBUG : Int := 14

/-! ## Byte-level encoding helpers -/

/-- Little-endian bytes of the low 32 bits of `n` (a `uint32_t` store;
assigning a wider value truncates, which the modulus performs). -/
def u32Bytes (n : Nat) : List Nat :=
  [n % 256, n / 256 % 256, n / 65536 % 256, n / 16777216 % 256]

/-- Little-endian decoding of four bytes into a natural number. -/
def dec4 (b0 b1 b2 b3 : Nat) : Nat :=
  b0 + 256 * (b1 + 256 * (b2 + 256 * b3))

/-- Decode the 32-bit little-endian field starting at index `i` of `l`
(missing bytes read as zero; callers only use in-range indices). -/
def dec4At (l : List Nat) (i : Nat) : Nat :=
  dec4 (l.getD i 0) (l.getD (i + 1) 0) (l.getD (i + 2) 0) (l.getD (i + 3) 0)

/-- The value of a byte when read through an `int8_t` lvalue. -/
def int8OfByte (b : Nat) : Int :=
  if b < 128 then (b : Int) else (b : Int) - 256

/-- Two's-complement bytes of a C `int` stored into a 32-bit field. -/
def int32Bytes (i : Int) : List Nat :=
  u32Bytes (i % 4294967296).toNat

/-- The C `int` value represented by an unsigned 32-bit value. -/
def int32OfNat (n : Nat) : Int :=
  if n < 2147483648 then (n : Int) else (n : Int) - 4294967296

/-! ## Log level rule primitives

`src/common/log-level-rule.c` is not part of the sources under
verification; only its callers in `tracepoint.c` are.  The functions
below are therefore modelled from the spec. -/

/-- Modelled from the spec: `lttng_log_level_rule_serialize`
(log-level-rule.c, not under src/).  The spec only calls the serialized
form a "log-level rule blob"; it is modelled as a packed communication
structure holding a type tag byte (`exactly` = 0,
`at-least-as-severe-as` = 1) followed by the 32-bit level.  An absent
rule (NULL) serializes to nothing. -/
def lttng_log_level_rule_serialize : Option LogLevelRule → List Nat
  | Option.none => []
  | some (.exactly level) => 0 :: int32Bytes level
  | some (.atLeastAsSevereAs level) => 1 :: int32Bytes level

/-- Modelled from the spec: `lttng_log_level_rule_create_from_payload`
(log-level-rule.c, not under src/), the inverse of the blob serializer.
Reads the packed tag byte and 32-bit level, rejecting a buffer too short
for them or an unknown tag; returns the rule and the number of bytes
consumed. -/
def lttng_log_level_rule_create_from_payload (v : List Nat) :
    Option (LogLevelRule × Nat) :=
  match v with
  | t :: l0 :: l1 :: l2 :: l3 :: _ =>
    let level := int32OfNat (dec4 l0 l1 l2 l3)
    if t = 0 then some (.exactly level, 5)
    else if t = 1 then some (.atLeastAsSevereAs level, 5)
    else Option.none
  | _ => Option.none

/-- Modelled from the spec: `lttng_log_level_rule_is_equal`
(log-level-rule.c, not under src/).  Structural: both absent is equal,
one absent is not, otherwise compare type and level. -/
def lttng_log_level_rule_is_equal :
    Option LogLevelRule → Option LogLevelRule → Bool
  | Option.none, Option.none => true
  | some a, some b => a = b
  | _, _ => false

/-! ## Hashing primitives

`src/common/hashtable/utils.c` is not part of the sources under
verification.  The spec only requires the hash to be a deterministic fold
under a fixed seed, so the key-hashing primitives are modelled as simple
deterministic functions. -/

/-- Modelled from the spec: `hash_key_ulong` (hashtable/utils.c, not under
src/); any deterministic function of the key and seed. -/
def hash_key_ulong (k : Nat) (seed : Nat) : Nat :=
  (k + seed) * 2654435761 % 18446744073709551616

/-- Modelled from the spec: `hash_key_str` (hashtable/utils.c, not under
src/); any deterministic fold over the string bytes and seed. -/
def hash_key_str (s : List Nat) (seed : Nat) : Nat :=
  s.foldl (fun h c => (h * 31 + c) % 18446744073709551616) seed

/-- Modelled from the spec: `lttng_log_level_rule_hash` (log-level-rule.c,
not under src/); a deterministic function of the rule. -/
def lttng_log_level_rule_hash (r : LogLevelRule) : Nat :=
  match r with
  | .exactly level => hash_key_ulong (2 * (level % 4294967296).toNat) 17
  | .atLeastAsSevereAs level => hash_key_ulong (2 * (level % 4294967296).toNat + 1) 17

/-! ## Event rule operations (src/common/event-rule/tracepoint.c) -/

/-- `lttng_event_rule_tracepoint_create` (tracepoint.c): refuses
`LTTNG_DOMAIN_NONE`; otherwise produces a rule with default pattern `"*"`
(byte 42), no filter, no log level rule and no exclusions. -/
def lttng_event_rule_tracepoint_create (d : DomainType) : Option TracepointRule :=
  match d with
  | .none => Option.none
  | .kernel => some ⟨.kernel, [42], Option.none, Option.none, []⟩
  | .ust => some ⟨.ust, [42], Option.none, Option.none, []⟩
  | .jul => some ⟨.jul, [42], Option.none, Option.none, []⟩
  | .log4j => some ⟨.log4j, [42], Option.none, Option.none, []⟩
  | .python => some ⟨.python, [42], Option.none, Option.none, []⟩

/-- `lttng_event_rule_tracepoint_set_pattern` (tracepoint.c): rejects an
empty pattern with INVALID, otherwise stores a copy (NULL-argument checks
are not representable in the model). -/
def lttng_event_rule_tracepoint_set_pattern (r : TracepointRule)
    (pattern : List Nat) : EventRuleStatus × TracepointRule :=
  if pattern.length = 0 then (.invalid, r)
  else (.ok, { r with pattern := pattern })

/-- `lttng_event_rule_tracepoint_set_filter` (tracepoint.c): rejects an
empty expression with INVALID, otherwise stores a copy. -/
def lttng_event_rule_tracepoint_set_filter (r : TracepointRule)
    (expression : List Nat) : EventRuleStatus × TracepointRule :=
  if expression.length = 0 then (.invalid, r)
  else (.ok, { r with filter_expression := some expression })

/-- `domain_supports_log_levels` (tracepoint.c): every domain but the
kernel supports log levels. -/
def domain_supports_log_levels : TracepointDomain → Bool
  | .kernel => false
  | .ust => true
  | .jul => true
  | .log4j => true
  | .python => true

/-- `log_level_rule_valid` (tracepoint.c): kernel never valid; user space
requires the level to lie in `[LTTNG_LOGLEVEL_EMERG ..
LTTNG_LOGLEVEL_DEBUG]`; the agent domains accept any level. -/
def log_level_rule_valid (rule : LogLevelRule) (domain : TracepointDomain) : Bool :=
  match domain with
  | .kernel => false
  | .ust =>
    if rule.level < LTTNG_LOGLEVEL_EMERG then false
    else if LTTNG_LOGLEVEL_DEBUG < rule.level then false
    else true
  | .jul => true
  | .log4j => true
  | .python => true

/-- `lttng_event_rule_tracepoint_set_log_level_rule` (tracepoint.c):
UNSUPPORTED when the rule's domain does not support log levels, INVALID
when the level is not valid for the domain, otherwise a copy is stored
(copy-allocation failure is not representable in the model). -/
def lttng_event_rule_tracepoint_set_log_level_rule (r : TracepointRule)
    (log_level_rule : LogLevelRule) : EventRuleStatus × TracepointRule :=
  if ¬ domain_supports_log_levels r.domain then (.unsupported, r)
  else if ¬ log_level_rule_valid log_level_rule r.domain then (.invalid, r)
  else (.ok, { r with log_level_rule := some log_level_rule })

/-- `lttng_event_rule_tracepoint_add_exclusion` (tracepoint.c):
UNSUPPORTED for the kernel and agent domains, INVALID when the exclusion
name length reaches `LTTNG_SYMBOL_NAME_LEN`, otherwise appended to the
exclusion array. -/
def lttng_event_rule_tracepoint_add_exclusion (r : TracepointRule)
    (exclusion : List Nat) : EventRuleStatus × TracepointRule :=
  match r.domain with
  | .kernel | .jul | .log4j | .python => (.unsupported, r)
  | .ust =>
    if LTTNG_SYMBOL_NAME_LEN ≤ exclusion.length then (.invalid, r)
    else (.ok, { r with exclusions := r.exclusions ++ [exclusion] })

/-- `lttng_event_rule_tracepoint_get_exclusions_count` (tracepoint.c)
(NULL-argument checks are not representable; the status is OK). -/
def lttng_event_rule_tracepoint_get_exclusions_count (r : TracepointRule) :
    EventRuleStatus × Nat :=
  (.ok, r.exclusions.length)

/-- `lttng_event_rule_tracepoint_get_exclusion_at_index` (tracepoint.c).
The second component models the caller-provided output pointer: `some`
when the function wrote through it, `Option.none` when it was left
untouched.  An out-of-range index jumps to the exit label with the status
still at its initial OK value. -/
def lttng_event_rule_tracepoint_get_exclusion_at_index (r : TracepointRule)
    (index : Nat) : EventRuleStatus × Option (List Nat) :=
  if h : index < r.exclusions.length then
    (.ok, some (r.exclusions.get ⟨index, h⟩))
  else
    (.ok, Option.none)

/-- `lttng_event_rule_tracepoint_validate` (tracepoint.c): requires a
pattern and a domain; in the model both are always set, the pattern since
creation stores `"*"` and every later store is non-null. -/
def lttng_event_rule_tracepoint_validate (_ : TracepointRule) : Bool :=
  true

/-- The `for` loop of `lttng_event_rule_tracepoint_is_equal`, comparing
the exclusions of both rules at equal indices (the source only reaches it
once the counts are known to be equal). -/
def tracepointExclusionsLoop : List (List Nat) → List (List Nat) → Bool
  | ea :: as', eb :: bs' => decide (ea = eb) && tracepointExclusionsLoop as' bs'
  | _, _ => true

/-- `lttng_event_rule_tracepoint_is_equal` (tracepoint.c): compares
domain, exclusion counts, filter set-ness, pattern, filter expressions,
log level rules, then the exclusions pairwise in order. -/
def lttng_event_rule_tracepoint_is_equal (a b : TracepointRule) : Bool :=
  decide (a.domain = b.domain) &&
  decide (a.exclusions.length = b.exclusions.length) &&
  decide (a.filter_expression.isSome = b.filter_expression.isSome) &&
  decide (a.pattern = b.pattern) &&
  (match a.filter_expression, b.filter_expression with
   | some fa, some fb => decide (fa = fb)
   | _, _ => true) &&
  lttng_log_level_rule_is_equal a.log_level_rule b.log_level_rule &&
  tracepointExclusionsLoop a.exclusions b.exclusions

/-- `lttng_ht_seed` (hashtable/hashtable.c, not under src/): the
process-wide hash seed; kept abstract by parameterizing the hash over it. -/
def lttng_event_rule_tracepoint_hash (seed : Nat) (r : TracepointRule) : Nat :=
  let h0 := hash_key_ulong 0 seed
  let h1 := Nat.xor h0 (hash_key_ulong (domainByte r.domain) seed)
  let h2 := Nat.xor h1 (hash_key_str r.pattern seed)
  let h3 :=
    match r.filter_expression with
    | some f => Nat.xor h2 (hash_key_str f seed)
    | Option.none => h2
  let h4 :=
    match r.log_level_rule with
    | some llr => Nat.xor h3 (lttng_log_level_rule_hash llr)
    | Option.none => h3
  r.exclusions.foldl (fun h e => Nat.xor h (hash_key_str e seed)) h4

/-- `filter_expression_len` as computed by
`lttng_event_rule_tracepoint_serialize`: the expression length with its
NUL terminator, or zero when unset. -/
def filterExpressionLen : Option (List Nat) → Nat
  | some f => f.length + 1
  | Option.none => 0

/-- `exclusions_len` as computed by
`lttng_event_rule_tracepoint_serialize`: for each exclusion, a `uint32_t`
length field plus the NUL-terminated name. -/
def exclusionsLen (ex : List (List Nat)) : Nat :=
  (ex.map (fun e => 4 + (e.length + 1))).sum

/-- The packed `struct lttng_event_rule_tracepoint_comm` (21 bytes:
`int8_t domain_type` and the five `uint32_t` fields `pattern_len`,
`filter_expression_len`, `log_level_rule_len`, `exclusions_count`,
`exclusions_len`) as filled in by
`lttng_event_rule_tracepoint_serialize`, with `log_level_rule_len`
holding its back-patched value: the length of the emitted log level rule
blob. -/
def commHeader (r : TracepointRule) : List Nat :=
  domainByte r.domain ::
    (u32Bytes (r.pattern.length + 1) ++
     u32Bytes (filterExpressionLen r.filter_expression) ++
     u32Bytes (lttng_log_level_rule_serialize r.log_level_rule).length ++
     u32Bytes r.exclusions.length ++
     u32Bytes (exclusionsLen r.exclusions))

/-- The serialized filter-expression region: the expression and its NUL,
or nothing when unset. -/
def filterChunk : Option (List Nat) → List Nat
  | some f => f ++ [0]
  | Option.none => []

/-- The serialized exclusion region: for each exclusion its `uint32_t`
length (NUL included) and the NUL-terminated name, in order. -/
def exclChunk (ex : List (List Nat)) : List Nat :=
  (ex.map (fun e => u32Bytes (e.length + 1) ++ (e ++ [0]))).flatten

/-- `lttng_event_rule_tracepoint_serialize` (tracepoint.c): the packed
`struct lttng_event_rule_tracepoint_comm` header followed by the pattern
(NUL included), the filter expression (NUL included, absent when unset),
the log level rule blob, then each exclusion as a `uint32_t` length and
the NUL-terminated name.  The header's `log_level_rule_len`, back-patched
by the source after emitting the blob, equals the blob's length. -/
def lttng_event_rule_tracepoint_serialize (r : TracepointRule) : List Nat :=
  commHeader r ++
    ((r.pattern ++ [0]) ++
     (filterChunk r.filter_expression ++
      (lttng_log_level_rule_serialize r.log_level_rule ++
       exclChunk r.exclusions)))

/-- `lttng_event_rule_serialize` (event-rule.c), specialized to the
tracepoint variant: an `int8_t` type tag
(`LTTNG_EVENT_RULE_TYPE_TRACEPOINT` = 0) followed by the variant body. -/
def lttng_event_rule_serialize_tracepoint (r : TracepointRule) : List Nat :=
  0 :: lttng_event_rule_tracepoint_serialize r

/-! ## Deserialization (tracepoint.c, `create_from_payload`)

`lttng_buffer_view_from_view(buffer, offset, len)` is valid exactly when
`offset + len` fits in the buffer; since the deserializer only walks
forward, the views are modelled by consuming a prefix of the remaining
byte list. -/

/-- A buffer view of `n` bytes taken at the current offset: the view's
bytes and the bytes past it, or `Option.none` when the view would exceed
the source (`lttng_buffer_view_from_view` returning an invalid view). -/
def readBytes (n : Nat) (l : List Nat) : Option (List Nat × List Nat) :=
  if n ≤ l.length then some (l.take n, l.drop n) else Option.none

/-- `lttng_strnlen` over the whole view: index of the first NUL byte, or
the view's length when there is none. -/
def strnlenList : List Nat → Nat
  | [] => 0
  | b :: t => if b = 0 then 0 else strnlenList t + 1

/-- `lttng_buffer_view_contains_string(view, view.data, len)` for a view
of exactly `len` bytes: the view is non-empty, and the first NUL is at
index `len - 1`. -/
def containsString (v : List Nat) (lenWithNull : Nat) : Bool :=
  if v.length = 0 then false
  else decide (strnlenList v ≠ v.length) && decide (strnlenList v = lenWithNull - 1)

/-- Map a declared-length string region: view the next `len` bytes, check
NUL termination, and return the string (bytes before the NUL). -/
def parseCString (len : Nat) (l : List Nat) : Option (List Nat × List Nat) :=
  match readBytes len l with
  | Option.none => Option.none
  | some (v, rest) =>
    if containsString v len then some (v.take (len - 1), rest)
    else Option.none

/-- The filter-expression step: a zero length means the field is absent
(`skip_filter_expression`), otherwise the string is mapped and checked. -/
def parseOptCString (len : Nat) (l : List Nat) :
    Option (Option (List Nat) × List Nat) :=
  if len = 0 then some (Option.none, l)
  else
    match parseCString len l with
    | Option.none => Option.none
    | some (s, rest) => some (some s, rest)

/-- The log-level-rule step: a zero length means no rule
(`skip_log_level_rule`); otherwise a payload view of exactly `len` bytes
is taken and handed to `lttng_log_level_rule_create_from_payload`; the
source then asserts that the rule consumed exactly `len` bytes. -/
def parseLogLevelRuleField (len : Nat) (l : List Nat) :
    Option (Option LogLevelRule × List Nat) :=
  if len = 0 then some (Option.none, l)
  else
    match readBytes len l with
    | Option.none => Option.none
    | some (v, rest) =>
      match lttng_log_level_rule_create_from_payload v with
      | Option.none => Option.none
      | some (llr, consumed) =>
        if consumed = len then some (some llr, rest) else Option.none

/-- The exclusion loop of `lttng_event_rule_tracepoint_create_from_payload`:
for each of `count` exclusions read a `uint32_t` length, map and check the
NUL-terminated name, and add it through
`lttng_event_rule_tracepoint_add_exclusion` (which rejects non-user-space
domains with UNSUPPORTED and over-long names with INVALID, both turned
into a hard error by the loop). -/
def parseExclusions (d : TracepointDomain) :
    Nat → List Nat → Option (List (List Nat) × List Nat)
  | 0, l => some ([], l)
  | n + 1, l =>
    match readBytes 4 l with
    | Option.none => Option.none
    | some (lenBytes, r1) =>
      let len := dec4At lenBytes 0
      match parseCString len r1 with
      | Option.none => Option.none
      | some (e, r2) =>
        if d ≠ .ust then Option.none
        else if LTTNG_SYMBOL_NAME_LEN ≤ e.length then Option.none
        else
          match parseExclusions d n r2 with
          | Option.none => Option.none
          | some (es, r3) => some (e :: es, r3)

/-- The domain check of `lttng_event_rule_tracepoint_create_from_payload`:
the `int8_t` domain value must satisfy
`LTTNG_DOMAIN_NONE < domain_type ≤ LTTNG_DOMAIN_PYTHON`, and
`lttng_event_rule_tracepoint_create` is then called with it. -/
def domainOfByte (b : Nat) : Option TracepointDomain :=
  if int8OfByte b ≤ 0 ∨ 5 < int8OfByte b then Option.none
  else if b = 1 then some .kernel
  else if b = 2 then some .ust
  else if b = 3 then some .jul
  else if b = 4 then some .log4j
  else some .python

/-- The body of `lttng_event_rule_tracepoint_create_from_payload` after
the header has been mapped and the domain checked: maps the pattern, the
optional filter expression, the optional log level rule blob and the
declared number of exclusions, each against the remaining payload, then
stores the parsed fields through the event-rule setters, whose
INVALID/UNSUPPORTED statuses become hard errors.  Returns the rule and
the bytes past the consumed region. -/
def parseTracepointBody (domain : TracepointDomain)
    (pattern_len filter_expression_len log_level_rule_len
     exclusions_count : Nat) (rest0 : List Nat) :
    Option (TracepointRule × List Nat) :=
  match parseCString pattern_len rest0 with
  | Option.none => Option.none
  | some (pattern, rest1) =>
    match parseOptCString filter_expression_len rest1 with
    | Option.none => Option.none
    | some (filter_expression, rest2) =>
      match parseLogLevelRuleField log_level_rule_len rest2 with
      | Option.none => Option.none
      | some (log_level_rule, rest3) =>
        match parseExclusions domain exclusions_count rest3 with
        | Option.none => Option.none
        | some (exclusions, rest4) =>
          -- lttng_event_rule_tracepoint_set_pattern
          if pattern.length = 0 then Option.none
          -- lttng_event_rule_tracepoint_set_filter (when present)
          else if (match filter_expression with
                   | some f => decide (f.length = 0)
                   | Option.none => false) then Option.none
          -- lttng_event_rule_tracepoint_set_log_level_rule (when present)
          else if (match log_level_rule with
                   | some llr =>
                     ! (domain_supports_log_levels domain &&
                        log_level_rule_valid llr domain)
                   | Option.none => false) then Option.none
          else
            some (⟨domain, pattern, filter_expression, log_level_rule,
                   exclusions⟩,
                  rest4)

/-- `lttng_event_rule_tracepoint_create_from_payload` (tracepoint.c).
Views the packed 21-byte `struct lttng_event_rule_tracepoint_comm`
header, checks the `int8_t` domain value, then parses the body with the
header's declared lengths.  (The header's `exclusions_len` field is read
but never validated by the source.)  Returns the rule and the number of
bytes consumed, or `Option.none` for the source's negative error
return. -/
def lttng_event_rule_tracepoint_create_from_payload (buf : List Nat) :
    Option (TracepointRule × Nat) :=
  match readBytes 21 buf with
  | Option.none => Option.none
  | some (header, rest0) =>
    match domainOfByte (header.getD 0 0) with
    | Option.none => Option.none
    | some domain =>
      match parseTracepointBody domain (dec4At header 1) (dec4At header 5)
          (dec4At header 9) (dec4At header 13) rest0 with
      | Option.none => Option.none
      | some (rule, rest4) => some (rule, buf.length - rest4.length)

/-- `lttng_event_rule_create_from_payload` (event-rule.c), restricted to
the tracepoint variant: reads the one-byte `struct lttng_event_rule_comm`
type tag, dispatches (`LTTNG_EVENT_RULE_TYPE_TRACEPOINT` = 0) on the
remaining payload, and validates the resulting rule.  The other variants'
parsers are outside this development. -/
def lttng_event_rule_create_from_payload_tracepoint (buf : List Nat) :
    Option (TracepointRule × Nat) :=
  match buf with
  | [] => Option.none
  | tag :: rest =>
    if int8OfByte tag = 0 then
      match lttng_event_rule_tracepoint_create_from_payload rest with
      | Option.none => Option.none
      | some (r, consumed) =>
        if lttng_event_rule_tracepoint_validate r then some (r, 1 + consumed)
        else Option.none
    else Option.none

/-! ## Well-formedness

A tracepoint rule constructible through the public API: the pattern and
any filter expression are non-empty C strings, exclusions exist only on
user-space rules and are shorter than `LTTNG_SYMBOL_NAME_LEN`, a log
level rule is only present when the domain supports one and its level is
domain-valid and a C `int`, and the declared lengths fit the `uint32_t`
communication fields. -/

/-- Bytes of a C string: non-zero and below 256. -/
def validStringBytes (s : List Nat) : Bool :=
  s.all fun b => decide (b ≠ 0) && decide (b < 256)

def WellFormedTracepointRule (r : TracepointRule) : Bool :=
  validStringBytes r.pattern &&
  decide (r.pattern.length ≠ 0) &&
  decide (r.pattern.length + 1 < 4294967296) &&
  (match r.filter_expression with
   | some f =>
     validStringBytes f && decide (f.length ≠ 0) &&
     decide (f.length + 1 < 4294967296)
   | Option.none => true) &&
  (match r.log_level_rule with
   | some llr =>
     domain_supports_log_levels r.domain &&
     log_level_rule_valid llr r.domain &&
     decide (-2147483648 ≤ llr.level) && decide (llr.level < 2147483648)
   | Option.none => true) &&
  (r.exclusions.isEmpty || decide (r.domain = .ust)) &&
  r.exclusions.all (fun e => validStringBytes e &&
    decide (e.length < LTTNG_SYMBOL_NAME_LEN)) &&
  decide (r.exclusions.length < 4294967296)

/-! ## Agent filter synthesis (tracepoint.c, `generate_agent_filter`) -/

/-- ASCII bytes of a literal string (used to state the `asprintf` format
fragments of `generate_agent_filter`). -/
def strBytes (s : String) : List Nat :=
  s.data.map Char.toNat

/-- Decimal digits of a natural number, as ASCII bytes. -/
def natDecBytes (n : Nat) : List Nat :=
  (Nat.toDigits 10 n).map Char.toNat

/-- `%d` rendering of a C `int`: optional minus sign and decimal digits. -/
def intDecBytes (i : Int) : List Nat :=
  if i < 0 then 45 :: natDecBytes i.natAbs else natDecBytes i.toNat

/-- The comparison operator chosen by `generate_agent_filter`: `==` for an
`exactly` rule and `>=` for an `at-least-as-severe-as` rule. -/
def logLevelOpBytes : LogLevelRule → List Nat
  | .exactly _ => strBytes "=="
  | .atLeastAsSevereAs _ => strBytes ">="

/-- `generate_agent_filter` (tracepoint.c).  Returns the composed agent
filter, `Option.none` standing for the NULL filter of an event with no
log level rule and the `"*"` pattern (with no other filter parts).  The
result mirrors the `asprintf` calls:
 * pattern other than `"*"`, user filter set:
   `(<filter>) && (logger_name == "<pattern>")`;
 * pattern other than `"*"`, no user filter: `logger_name == "<pattern>"`;
 * a log level rule then wraps whatever precedes (the composition so far,
   or the bare user filter when the pattern is `"*"`) as
   `(<previous>) && (int_loglevel <op> <level>)`, or stands alone as
   `int_loglevel <op> <level>` when nothing precedes it.
(The error paths of the source are a failing pattern getter and a failing
`asprintf`, neither representable in the model.) -/
def generate_agent_filter (r : TracepointRule) : Option (List Nat) :=
  let agent_filter : Option (List Nat) :=
    if r.pattern = strBytes "*" then Option.none
    else
      match r.filter_expression with
      | some filter =>
        some (strBytes "(" ++ filter ++ strBytes ") && (logger_name == \"" ++
              r.pattern ++ strBytes "\")")
      | Option.none =>
        some (strBytes "logger_name == \"" ++ r.pattern ++ strBytes "\"")
  match r.log_level_rule with
  | Option.none => agent_filter
  | some llr =>
    let op := logLevelOpBytes llr
    match r.filter_expression, agent_filter with
    | Option.none, Option.none =>
      some (strBytes "int_loglevel " ++ op ++ strBytes " " ++
            intDecBytes llr.level)
    | filter, _ =>
      let base :=
        match agent_filter with
        | some a => a
        | Option.none => filter.getD []
      some (strBytes "(" ++ base ++ strBytes ") && (int_loglevel " ++ op ++
            strBytes " " ++ intDecBytes llr.level ++ strBytes ")")

/-- `enum lttng_event_rule_generate_exclusions_status` (the source's
`..._STATUS_NONE` is `noExclusions` here). -/
inductive GenerateExclusionsStatus where
  | ok
  | noExclusions
  | outOfMemory
  | error
deriving DecidableEq, Repr

/-- `lttng_event_rule_tracepoint_generate_exclusions` (tracepoint.c):
the kernel and agent domains produce no exclusion structure (status
NONE); a user-space rule with no exclusion produces none either;
otherwise the names are copied out in order (a name that does not fit
`LTTNG_SYMBOL_NAME_LEN` makes `lttng_strncpy` fail, status ERROR;
allocation failure is not representable). -/
def lttng_event_rule_tracepoint_generate_exclusions (r : TracepointRule) :
    GenerateExclusionsStatus × Option (List (List Nat)) :=
  match r.domain with
  | .kernel | .jul | .log4j | .python => (.noExclusions, Option.none)
  | .ust =>
    if r.exclusions.length = 0 then (.noExclusions, Option.none)
    else if r.exclusions.any (fun e => LTTNG_SYMBOL_NAME_LEN ≤ e.length) then
      (.error, Option.none)
    else (.ok, some r.exclusions)

/-! ## Daemon option handling (src/bin/lttng-sessiond/main.c) -/

/-- `EVENT_NOTIFIER_ERROR_COUNTER_NUMBER_OF_BUCKET_MAX` (main.c line 87). -/
def EVENT_NOTIFIER_ERROR_COUNTER_NUMBER_OF_BUCKET_MAX : Nat := 65535

/-- The `--event-notifier-error-number-of-bucket` branch of `set_option`
(main.c): `v` is the `strtoul` value of the argument; the value is
rejected (`-1`, configuration untouched) when it is zero or at least
`EVENT_NOTIFIER_ERROR_COUNTER_NUMBER_OF_BUCKET_MAX`, and stored into
`config.event_notifier_error_counter_bucket` otherwise (`0`).  Returns
the branch's return value and the configuration field after the call. -/
def set_option_event_notifier_error_buckets (v : Nat) (config : Nat) :
    Int × Nat :=
  if v = 0 ∨ EVENT_NOTIFIER_ERROR_COUNTER_NUMBER_OF_BUCKET_MAX ≤ v then
    (-1, config)
  else (0, v)

/-! ## Basic parsing lemmas -/

theorem readBytes_append (n : Nat) (a b : List Nat) (h : a.length = n) :
    readBytes n (a ++ b) = some (a, b) := by
  subst h
  unfold readBytes
  rw [if_pos (by simp)]
  rw [List.take_left, List.drop_left]

theorem readBytes_short (n : Nat) (l : List Nat) (h : l.length < n) :
    readBytes n l = Option.none := by
  unfold readBytes
  rw [if_neg (by omega)]

theorem dec4_u32 (n : Nat) (h : n < 4294967296) :
    dec4 (n % 256) (n / 256 % 256) (n / 65536 % 256) (n / 16777216 % 256) = n := by
  unfold dec4
  omega

theorem dec4At_u32Bytes (n : Nat) (rest : List Nat) (h : n < 4294967296) :
    dec4At (u32Bytes n ++ rest) 0 = n := by
  simp only [u32Bytes, List.cons_append, List.nil_append, dec4At, List.getD]
  simpa using dec4_u32 n h

theorem strnlenList_append_zero (s : List Nat) (h : ∀ b ∈ s, b ≠ 0) :
    strnlenList (s ++ [0]) = s.length := by
  induction s with
  | nil => rfl
  | cons a t ih =>
    have ha : a ≠ 0 := h a (by simp)
    simp only [List.cons_append, strnlenList, if_neg ha, List.length_cons]
    show strnlenList (t ++ [0]) + 1 = t.length + 1
    rw [ih fun b hb => h b (by simp [hb])]

theorem containsString_append_zero (s : List Nat) (h : ∀ b ∈ s, b ≠ 0) :
    containsString (s ++ [0]) (s.length + 1) = true := by
  unfold containsString
  rw [if_neg (by simp)]
  rw [strnlenList_append_zero s h]
  simp

theorem parseCString_append (s rest : List Nat) (h : ∀ b ∈ s, b ≠ 0) :
    parseCString (s.length + 1) ((s ++ [0]) ++ rest) = some (s, rest) := by
  have h1 : (s ++ [0]).length = s.length + 1 := by simp
  simp only [parseCString, readBytes_append _ _ _ h1,
    containsString_append_zero s h, if_true, Nat.add_sub_cancel]
  rw [List.take_left]

theorem parseOptCString_zero (l : List Nat) :
    parseOptCString 0 l = some (Option.none, l) := rfl

theorem parseOptCString_append (s rest : List Nat) (h : ∀ b ∈ s, b ≠ 0) :
    parseOptCString (s.length + 1) ((s ++ [0]) ++ rest) = some (some s, rest) := by
  unfold parseOptCString
  rw [if_neg (by omega)]
  rw [parseCString_append s rest h]

theorem int32OfNat_emod (i : Int) (h1 : -2147483648 ≤ i) (h2 : i < 2147483648) :
    int32OfNat (i % 4294967296).toNat = i := by
  unfold int32OfNat
  split <;> omega

theorem llr_serialize_length (llr : LogLevelRule) :
    (lttng_log_level_rule_serialize (some llr)).length = 5 := by
  cases llr <;> rfl

theorem llr_blob_roundtrip (llr : LogLevelRule)
    (h1 : -2147483648 ≤ llr.level) (h2 : llr.level < 2147483648) :
    lttng_log_level_rule_create_from_payload
      (lttng_log_level_rule_serialize (some llr)) = some (llr, 5) := by
  have key : ∀ i : Int, -2147483648 ≤ i → i < 2147483648 →
      int32OfNat (dec4 ((i % 4294967296).toNat % 256)
        ((i % 4294967296).toNat / 256 % 256)
        ((i % 4294967296).toNat / 65536 % 256)
        ((i % 4294967296).toNat / 16777216 % 256)) = i := by
    intro i hi1 hi2
    rw [dec4_u32 _ (by omega)]
    exact int32OfNat_emod i hi1 hi2
  cases llr with
  | exactly level =>
    simp only [lttng_log_level_rule_serialize, int32Bytes, u32Bytes,
      lttng_log_level_rule_create_from_payload]
    rw [key level h1 h2]
    simp
  | atLeastAsSevereAs level =>
    simp only [lttng_log_level_rule_serialize, int32Bytes, u32Bytes,
      lttng_log_level_rule_create_from_payload]
    rw [key level h1 h2]
    simp

theorem parseLogLevelRuleField_none (l : List Nat) :
    parseLogLevelRuleField 0 l = some (Option.none, l) := rfl

theorem parseLogLevelRuleField_append (llr : LogLevelRule) (rest : List Nat)
    (h1 : -2147483648 ≤ llr.level) (h2 : llr.level < 2147483648) :
    parseLogLevelRuleField (lttng_log_level_rule_serialize (some llr)).length
      (lttng_log_level_rule_serialize (some llr) ++ rest) =
      some (some llr, rest) := by
  rw [llr_serialize_length]
  unfold parseLogLevelRuleField
  rw [if_neg (by omega)]
  rw [readBytes_append 5 _ _ (llr_serialize_length llr)]
  simp [llr_blob_roundtrip llr h1 h2]

theorem domainOfByte_domainByte (d : TracepointDomain) :
    domainOfByte (domainByte d) = some d := by
  cases d <;> rfl

theorem dec4At_u32Bytes_self (n : Nat) (h : n < 4294967296) :
    dec4At (u32Bytes n) 0 = n := by
  simp only [u32Bytes, dec4At, List.getD, List.get?]
  simpa using dec4_u32 n h

theorem dec4At_cons_u32Bytes (x : Nat) (n : Nat) (rest : List Nat)
    (h : n < 4294967296) :
    dec4At (x :: (u32Bytes n ++ rest)) 1 = n := by
  simp only [u32Bytes, List.cons_append, List.nil_append, dec4At, List.getD,
    List.get?]
  simpa using dec4_u32 n h

theorem exclChunk_cons (e : List Nat) (t : List (List Nat)) :
    exclChunk (e :: t) =
      (u32Bytes (e.length + 1) ++ (e ++ [0])) ++ exclChunk t := by
  simp [exclChunk]

theorem parseExclusions_chunk (ex : List (List Nat)) (rest : List Nat)
    (h : ∀ e ∈ ex, (∀ b ∈ e, b ≠ 0) ∧ e.length < LTTNG_SYMBOL_NAME_LEN) :
    parseExclusions .ust ex.length (exclChunk ex ++ rest) = some (ex, rest) := by
  induction ex with
  | nil => simp [exclChunk, parseExclusions]
  | cons e t ih =>
    have he := h e (by simp)
    rw [exclChunk_cons]
    show parseExclusions .ust (t.length + 1)
      ((u32Bytes (e.length + 1) ++ (e ++ [0])) ++ exclChunk t ++ rest) = _
    unfold parseExclusions
    rw [show (u32Bytes (e.length + 1) ++ (e ++ [0])) ++ exclChunk t ++ rest =
        u32Bytes (e.length + 1) ++ ((e ++ [0]) ++ (exclChunk t ++ rest)) by
      simp [List.append_assoc]]
    rw [readBytes_append 4 _ _ (by simp [u32Bytes])]
    have hlen : dec4At (u32Bytes (e.length + 1)) 0 = e.length + 1 := by
      have h256 : e.length + 1 < 4294967296 := by
        have := he.2
        unfold LTTNG_SYMBOL_NAME_LEN at this
        omega
      exact dec4At_u32Bytes_self _ h256
    simp only [hlen]
    rw [parseCString_append e _ he.1]
    have hne : ¬ (TracepointDomain.ust ≠ TracepointDomain.ust) := by simp
    have hlt : ¬ (LTTNG_SYMBOL_NAME_LEN ≤ e.length) := by omega
    simp only [if_neg hne, if_neg hlt]
    rw [ih fun x hx => h x (by simp [hx])]

theorem commHeader_length (r : TracepointRule) : (commHeader r).length = 21 := by
  simp [commHeader, u32Bytes]

theorem commHeader_getD0 (r : TracepointRule) :
    (commHeader r).getD 0 0 = domainByte r.domain := rfl

theorem llr_blob_length_lt (lo : Option LogLevelRule) :
    (lttng_log_level_rule_serialize lo).length < 4294967296 := by
  cases lo with
  | none => simp [lttng_log_level_rule_serialize]
  | some llr => rw [llr_serialize_length]; omega

theorem commHeader_field_1 (r : TracepointRule)
    (h : r.pattern.length + 1 < 4294967296) :
    dec4At (commHeader r) 1 = r.pattern.length + 1 := by
  have h0 : dec4At (commHeader r) 1 =
      dec4 ((r.pattern.length + 1) % 256) ((r.pattern.length + 1) / 256 % 256)
        ((r.pattern.length + 1) / 65536 % 256)
        ((r.pattern.length + 1) / 16777216 % 256) := rfl
  rw [h0]
  exact dec4_u32 _ h

theorem commHeader_field_5 (r : TracepointRule)
    (h : filterExpressionLen r.filter_expression < 4294967296) :
    dec4At (commHeader r) 5 = filterExpressionLen r.filter_expression := by
  have h0 : dec4At (commHeader r) 5 =
      dec4 (filterExpressionLen r.filter_expression % 256)
        (filterExpressionLen r.filter_expression / 256 % 256)
        (filterExpressionLen r.filter_expression / 65536 % 256)
        (filterExpressionLen r.filter_expression / 16777216 % 256) := rfl
  rw [h0]
  exact dec4_u32 _ h

theorem commHeader_field_9 (r : TracepointRule) :
    dec4At (commHeader r) 9 =
      (lttng_log_level_rule_serialize r.log_level_rule).length := by
  have h0 : dec4At (commHeader r) 9 =
      dec4 ((lttng_log_level_rule_serialize r.log_level_rule).length % 256)
        ((lttng_log_level_rule_serialize r.log_level_rule).length / 256 % 256)
        ((lttng_log_level_rule_serialize r.log_level_rule).length / 65536 % 256)
        ((lttng_log_level_rule_serialize r.log_level_rule).length / 16777216 % 256) :=
    rfl
  rw [h0]
  exact dec4_u32 _ (llr_blob_length_lt r.log_level_rule)

theorem commHeader_field_13 (r : TracepointRule)
    (h : r.exclusions.length < 4294967296) :
    dec4At (commHeader r) 13 = r.exclusions.length := by
  have h0 : dec4At (commHeader r) 13 =
      dec4 (r.exclusions.length % 256) (r.exclusions.length / 256 % 256)
        (r.exclusions.length / 65536 % 256)
        (r.exclusions.length / 16777216 % 256) := rfl
  rw [h0]
  exact dec4_u32 _ h

theorem parseExclusions_chunk_any (d : TracepointDomain)
    (ex : List (List Nat)) (rest : List Nat)
    (hex : ∀ e ∈ ex, (∀ b ∈ e, b ≠ 0) ∧ e.length < LTTNG_SYMBOL_NAME_LEN)
    (hexd : ex ≠ [] → d = .ust) :
    parseExclusions d ex.length (exclChunk ex ++ rest) = some (ex, rest) := by
  cases ex with
  | nil => simp [exclChunk, parseExclusions]
  | cons e t =>
    rw [hexd (by simp)]
    exact parseExclusions_chunk (e :: t) rest hex

theorem parseTracepointBody_roundtrip (d : TracepointDomain) (p : List Nat)
    (fo : Option (List Nat)) (lo : Option LogLevelRule)
    (ex : List (List Nat)) (rest : List Nat)
    (hp : ∀ b ∈ p, b ≠ 0) (hp0 : p.length ≠ 0)
    (hf : ∀ f, fo = some f → (∀ b ∈ f, b ≠ 0) ∧ f.length ≠ 0)
    (hl : ∀ llr, lo = some llr →
      -2147483648 ≤ llr.level ∧ llr.level < 2147483648 ∧
      domain_supports_log_levels d = true ∧ log_level_rule_valid llr d = true)
    (hex : ∀ e ∈ ex, (∀ b ∈ e, b ≠ 0) ∧ e.length < LTTNG_SYMBOL_NAME_LEN)
    (hexd : ex ≠ [] → d = .ust) :
    parseTracepointBody d (p.length + 1) (filterExpressionLen fo)
      (lttng_log_level_rule_serialize lo).length ex.length
      ((p ++ [0]) ++
       (filterChunk fo ++
        (lttng_log_level_rule_serialize lo ++ (exclChunk ex ++ rest)))) =
      some (⟨d, p, fo, lo, ex⟩, rest) := by
  unfold parseTracepointBody
  rw [parseCString_append p _ hp]
  cases fo with
  | none =>
    cases lo with
    | none =>
      simp only [filterExpressionLen, filterChunk,
        lttng_log_level_rule_serialize, List.length_nil, List.nil_append,
        parseOptCString_zero, parseLogLevelRuleField_none,
        parseExclusions_chunk_any d ex rest hex hexd]
      simp [hp0]
    | some llr =>
      obtain ⟨hl1, hl2, hl3, hl4⟩ := hl llr rfl
      simp only [filterExpressionLen, filterChunk, List.nil_append,
        parseOptCString_zero, parseLogLevelRuleField_append llr _ hl1 hl2,
        parseExclusions_chunk_any d ex rest hex hexd]
      simp [hp0, hl3, hl4]
  | some f =>
    obtain ⟨hf1, hf2⟩ := hf f rfl
    cases lo with
    | none =>
      simp only [filterExpressionLen, filterChunk,
        lttng_log_level_rule_serialize, List.length_nil, List.nil_append,
        parseOptCString_append f _ hf1, parseLogLevelRuleField_none,
        parseExclusions_chunk_any d ex rest hex hexd]
      simp [hp0, hf2]
    | some llr =>
      obtain ⟨hl1, hl2, hl3, hl4⟩ := hl llr rfl
      simp only [filterExpressionLen, filterChunk,
        parseOptCString_append f _ hf1,
        parseLogLevelRuleField_append llr _ hl1 hl2,
        parseExclusions_chunk_any d ex rest hex hexd]
      simp [hp0, hf2, hl3, hl4]

theorem tracepoint_roundtrip_eq (r : TracepointRule)
    (h : WellFormedTracepointRule r = true) :
    lttng_event_rule_tracepoint_create_from_payload
        (lttng_event_rule_tracepoint_serialize r) =
      some (r, (lttng_event_rule_tracepoint_serialize r).length) := by
  obtain ⟨d, p, fo, lo, ex⟩ := r
  unfold WellFormedTracepointRule validStringBytes at h
  simp only [Bool.and_eq_true, decide_eq_true_eq, List.all_eq_true,
    Bool.or_eq_true, List.isEmpty_iff] at h
  obtain ⟨⟨⟨⟨⟨⟨⟨hA, hB⟩, hC⟩, hD⟩, hE⟩, hF⟩, hG⟩, hH⟩ := h
  have hp : ∀ b ∈ p, b ≠ 0 := fun b hb => (hA b hb).1
  have hf : ∀ f, fo = some f → (∀ b ∈ f, b ≠ 0) ∧ f.length ≠ 0 := by
    intro f hfo
    rw [hfo] at hD
    simp only [Bool.and_eq_true, decide_eq_true_eq, List.all_eq_true] at hD
    exact ⟨fun b hb => (hD.1.1 b hb).1, hD.1.2⟩
  have hl : ∀ llr, lo = some llr →
      -2147483648 ≤ llr.level ∧ llr.level < 2147483648 ∧
      domain_supports_log_levels d = true ∧ log_level_rule_valid llr d = true := by
    intro llr hlo
    rw [hlo] at hE
    simp only [Bool.and_eq_true, decide_eq_true_eq] at hE
    exact ⟨hE.1.2, hE.2, hE.1.1.1, hE.1.1.2⟩
  have hex : ∀ e ∈ ex, (∀ b ∈ e, b ≠ 0) ∧ e.length < LTTNG_SYMBOL_NAME_LEN := by
    intro e he
    have := hG e he
    simp only [Bool.and_eq_true, decide_eq_true_eq, List.all_eq_true] at this
    exact ⟨fun b hb => (this.1 b hb).1, this.2⟩
  have hexd : ex ≠ [] → d = .ust := fun hne => hF.resolve_left hne
  have h5 : filterExpressionLen fo < 4294967296 := by
    cases fo with
    | none => simp [filterExpressionLen]
    | some f =>
      simp only [Bool.and_eq_true, decide_eq_true_eq, List.all_eq_true] at hD
      simpa [filterExpressionLen] using hD.2
  have hC1 : (TracepointRule.mk d p fo lo ex).pattern.length + 1 < 4294967296 := hC
  have h51 : filterExpressionLen (TracepointRule.mk d p fo lo ex).filter_expression <
      4294967296 := h5
  have hH1 : (TracepointRule.mk d p fo lo ex).exclusions.length < 4294967296 := hH
  unfold lttng_event_rule_tracepoint_serialize
  unfold lttng_event_rule_tracepoint_create_from_payload
  rw [readBytes_append 21 _ _ (commHeader_length _)]
  simp only [commHeader_getD0, domainOfByte_domainByte,
    commHeader_field_1 _ hC1, commHeader_field_5 _ h51,
    commHeader_field_9, commHeader_field_13 _ hH1]
  rw [show exclChunk ex = exclChunk ex ++ [] from (List.append_nil _).symm]
  rw [parseTracepointBody_roundtrip d p fo lo ex [] hp hB hf hl hex hexd]
  simp [lttng_event_rule_tracepoint_serialize]

theorem tracepointExclusionsLoop_refl (l : List (List Nat)) :
    tracepointExclusionsLoop l l = true := by
  induction l with
  | nil => rfl
  | cons e t ih => simp [tracepointExclusionsLoop, ih]

theorem llr_is_equal_refl (lo : Option LogLevelRule) :
    lttng_log_level_rule_is_equal lo lo = true := by
  cases lo <;> simp [lttng_log_level_rule_is_equal]

theorem tracepoint_is_equal_refl (r : TracepointRule) :
    lttng_event_rule_tracepoint_is_equal r r = true := by
  unfold lttng_event_rule_tracepoint_is_equal
  simp only [decide_True, Bool.true_and, llr_is_equal_refl,
    tracepointExclusionsLoop_refl, Bool.and_true]
  cases r.filter_expression <;> simp

theorem tracepointExclusionsLoop_eq (l1 l2 : List (List Nat))
    (hlen : l1.length = l2.length)
    (h : tracepointExclusionsLoop l1 l2 = true) : l1 = l2 := by
  induction l1 generalizing l2 with
  | nil => cases l2 with
    | nil => rfl
    | cons b t => simp at hlen
  | cons a t1 ih =>
    cases l2 with
    | nil => simp at hlen
    | cons b t2 =>
      simp only [tracepointExclusionsLoop, Bool.and_eq_true,
        decide_eq_true_eq] at h
      simp only [List.length_cons, Nat.add_right_cancel_iff] at hlen
      rw [h.1, ih t2 hlen h.2]

theorem eq_of_tracepoint_is_equal (a b : TracepointRule)
    (h : lttng_event_rule_tracepoint_is_equal a b = true) : a = b := by
  obtain ⟨da, pa, foa, loa, exa⟩ := a
  obtain ⟨db, pb, fob, lob, exb⟩ := b
  unfold lttng_event_rule_tracepoint_is_equal at h
  simp only [Bool.and_eq_true, decide_eq_true_eq] at h
  obtain ⟨⟨⟨⟨⟨⟨hdom, hcnt⟩, hsome⟩, hpat⟩, hfil⟩, hllr⟩, hloop⟩ := h
  subst hdom
  subst hpat
  have hfo : foa = fob := by
    cases foa with
    | none => cases fob with
      | none => rfl
      | some f => simp at hsome
    | some f => cases fob with
      | none => simp at hsome
      | some g => simp only [decide_eq_true_eq] at hfil; rw [hfil]
  subst hfo
  have hlo : loa = lob := by
    cases loa with
    | none => cases lob with
      | none => rfl
      | some l => simp [lttng_log_level_rule_is_equal] at hllr
    | some l => cases lob with
      | none => simp [lttng_log_level_rule_is_equal] at hllr
      | some m =>
        simp only [lttng_log_level_rule_is_equal, decide_eq_true_eq] at hllr
        rw [hllr]
  subst hlo
  rw [tracepointExclusionsLoop_eq exa exb (by simpa using hcnt) hloop]

/-! ## Claim theorems -/

/-- C1: for every well-formed tracepoint event rule (any domain, pattern,
optional filter, optional log level rule, ordered exclusions),
deserializing the serialized payload succeeds, consumes the whole
payload, and yields a rule that `lttng_event_rule_tracepoint_is_equal`
declares equal to the original, with the same exclusion count and the
exclusions in the same order. -/
theorem serialize_roundtrip_equal (r : TracepointRule)
    (h : WellFormedTracepointRule r = true) :
    ∃ r' : TracepointRule,
      lttng_event_rule_tracepoint_create_from_payload
          (lttng_event_rule_tracepoint_serialize r) =
        some (r', (lttng_event_rule_tracepoint_serialize r).length) ∧
      lttng_event_rule_tracepoint_is_equal r' r = true ∧
      r'.exclusions.length = r.exclusions.length ∧
      r'.exclusions = r.exclusions :=
  ⟨r, tracepoint_roundtrip_eq r h, tracepoint_is_equal_refl r, rfl, rfl⟩

/-- C1 witness: the round-trip at the spec's example rule (user-space
domain, pattern `my_event_*`, filter `msg_id == 23 && size >= 2048`, log
level rule `exactly(6)`, three ordered exclusions). -/
theorem serialize_roundtrip_equal_witness :
    WellFormedTracepointRule
        ⟨.ust, strBytes "my_event_*",
         some (strBytes "msg_id == 23 && size >= 2048"),
         some (.exactly 6),
         [strBytes "my_event_test1", strBytes "my_event_test2",
          strBytes "my_event_test3"]⟩ = true ∧
    (∃ r' : TracepointRule,
      lttng_event_rule_tracepoint_create_from_payload
          (lttng_event_rule_tracepoint_serialize
            ⟨.ust, strBytes "my_event_*",
             some (strBytes "msg_id == 23 && size >= 2048"),
             some (.exactly 6),
             [strBytes "my_event_test1", strBytes "my_event_test2",
              strBytes "my_event_test3"]⟩) =
        some (r', (lttng_event_rule_tracepoint_serialize
            ⟨.ust, strBytes "my_event_*",
             some (strBytes "msg_id == 23 && size >= 2048"),
             some (.exactly 6),
             [strBytes "my_event_test1", strBytes "my_event_test2",
              strBytes "my_event_test3"]⟩).length) ∧
      lttng_event_rule_tracepoint_is_equal r'
          ⟨.ust, strBytes "my_event_*",
           some (strBytes "msg_id == 23 && size >= 2048"),
           some (.exactly 6),
           [strBytes "my_event_test1", strBytes "my_event_test2",
            strBytes "my_event_test3"]⟩ = true ∧
      r'.exclusions.length =
        (⟨.ust, strBytes "my_event_*",
          some (strBytes "msg_id == 23 && size >= 2048"),
          some (.exactly 6),
          [strBytes "my_event_test1", strBytes "my_event_test2",
           strBytes "my_event_test3"]⟩ : TracepointRule).exclusions.length ∧
      r'.exclusions =
        (⟨.ust, strBytes "my_event_*",
          some (strBytes "msg_id == 23 && size >= 2048"),
          some (.exactly 6),
          [strBytes "my_event_test1", strBytes "my_event_test2",
           strBytes "my_event_test3"]⟩ : TracepointRule).exclusions) :=
  ⟨by decide, serialize_roundtrip_equal _ (by decide)⟩

/-- C2: whenever the tracepoint equality predicate declares two rules
equal, their hashes under any common seed agree; the hash is the
deterministic fold `lttng_event_rule_tracepoint_hash` over type tag,
domain, pattern, filter, log level rule and exclusions. -/
theorem tracepoint_equal_implies_hash_equal (seed : Nat)
    (a b : TracepointRule)
    (h : lttng_event_rule_tracepoint_is_equal a b = true) :
    lttng_event_rule_tracepoint_hash seed a =
      lttng_event_rule_tracepoint_hash seed b := by
  rw [eq_of_tracepoint_is_equal a b h]

/-- C2 witness: two structurally equal user-space rules hash alike under
seed 5. -/
theorem tracepoint_equal_implies_hash_equal_witness :
    lttng_event_rule_tracepoint_is_equal
        ⟨.ust, strBytes "my_event_*", some (strBytes "a > 1"),
         some (.atLeastAsSevereAs 6), [strBytes "x"]⟩
        ⟨.ust, strBytes "my_event_*", some (strBytes "a > 1"),
         some (.atLeastAsSevereAs 6), [strBytes "x"]⟩ = true ∧
    lttng_event_rule_tracepoint_hash 5
        ⟨.ust, strBytes "my_event_*", some (strBytes "a > 1"),
         some (.atLeastAsSevereAs 6), [strBytes "x"]⟩ =
      lttng_event_rule_tracepoint_hash 5
        ⟨.ust, strBytes "my_event_*", some (strBytes "a > 1"),
         some (.atLeastAsSevereAs 6), [strBytes "x"]⟩ :=
  ⟨by decide, tracepoint_equal_implies_hash_equal 5 _ _ (by decide)⟩

/-- C3: for every tracepoint rule whose domain is KERNEL, JUL, LOG4J or
PYTHON, `add_exclusion` returns UNSUPPORTED and leaves the rule (hence
its exclusion count, zero for any rule created in such a domain)
unchanged; the call can return OK only on a user-space rule.  Freshly
created rules start with no exclusion in every domain. -/
theorem add_exclusion_domain_gate (r : TracepointRule) (e : List Nat) :
    (r.domain = .kernel ∨ r.domain = .jul ∨ r.domain = .log4j ∨
        r.domain = .python →
      (lttng_event_rule_tracepoint_add_exclusion r e).1 = .unsupported ∧
      (lttng_event_rule_tracepoint_add_exclusion r e).2 = r) ∧
    ((lttng_event_rule_tracepoint_add_exclusion r e).1 = .ok →
      r.domain = .ust) ∧
    (∀ d r0, lttng_event_rule_tracepoint_create d = some r0 →
      (lttng_event_rule_tracepoint_get_exclusions_count r0).2 = 0) := by
  refine ⟨?_, ?_, ?_⟩
  · intro hd
    rcases hd with h | h | h | h <;>
      simp [lttng_event_rule_tracepoint_add_exclusion, h]
  · intro hok
    cases hdom : r.domain <;>
      simp [lttng_event_rule_tracepoint_add_exclusion, hdom] at hok ⊢
  · intro d r0 hc
    cases d <;> simp [lttng_event_rule_tracepoint_create] at hc <;>
      simp [← hc, lttng_event_rule_tracepoint_get_exclusions_count]

/-- C3 witness: on a JUL rule, adding exclusion `x` is UNSUPPORTED and
the rule keeps zero exclusions. -/
theorem add_exclusion_domain_gate_witness :
    ((⟨.jul, [42], Option.none, Option.none, []⟩ : TracepointRule).domain =
        .kernel ∨
      (⟨.jul, [42], Option.none, Option.none, []⟩ : TracepointRule).domain =
        .jul ∨
      (⟨.jul, [42], Option.none, Option.none, []⟩ : TracepointRule).domain =
        .log4j ∨
      (⟨.jul, [42], Option.none, Option.none, []⟩ : TracepointRule).domain =
        .python) ∧
    ((lttng_event_rule_tracepoint_add_exclusion
        ⟨.jul, [42], Option.none, Option.none, []⟩ (strBytes "x")).1 =
      .unsupported ∧
     (lttng_event_rule_tracepoint_add_exclusion
        ⟨.jul, [42], Option.none, Option.none, []⟩ (strBytes "x")).2 =
      ⟨.jul, [42], Option.none, Option.none, []⟩) :=
  ⟨by decide,
   (add_exclusion_domain_gate ⟨.jul, [42], Option.none, Option.none, []⟩
      (strBytes "x")).1 (by decide)⟩

/-- C4: `set_log_level_rule` returns UNSUPPORTED exactly when the rule's
domain is the kernel; for the user-space, JUL, Log4j and Python domains a
log level rule whose level is valid for the domain is accepted with OK
and stored on the rule. -/
theorem set_log_level_rule_domain_gate (r : TracepointRule)
    (llr : LogLevelRule) :
    ((lttng_event_rule_tracepoint_set_log_level_rule r llr).1 =
        .unsupported ↔ r.domain = .kernel) ∧
    (r.domain ≠ .kernel → log_level_rule_valid llr r.domain = true →
      (lttng_event_rule_tracepoint_set_log_level_rule r llr).1 = .ok ∧
      (lttng_event_rule_tracepoint_set_log_level_rule r llr).2.log_level_rule =
        some llr) := by
  constructor
  · constructor
    · intro h
      cases hdom : r.domain <;>
        simp [lttng_event_rule_tracepoint_set_log_level_rule,
          domain_supports_log_levels, hdom] at h ⊢ <;>
        split at h <;> simp_all
    · intro h
      simp [lttng_event_rule_tracepoint_set_log_level_rule,
        domain_supports_log_levels, h]
  · intro hdom hvalid
    cases h : r.domain <;> try exact absurd h hdom
    all_goals
      simp_all [lttng_event_rule_tracepoint_set_log_level_rule,
        domain_supports_log_levels]

/-- C4 witness: a user-space rule accepts and stores `exactly(5)` with
OK, and its set-log-level-rule status is UNSUPPORTED precisely never
(domain not kernel). -/
theorem set_log_level_rule_domain_gate_witness :
    (((lttng_event_rule_tracepoint_set_log_level_rule
          ⟨.ust, [42], Option.none, Option.none, []⟩ (.exactly 5)).1 =
        .unsupported ↔
      (⟨.ust, [42], Option.none, Option.none, []⟩ : TracepointRule).domain =
        .kernel) ∧
     ((lttng_event_rule_tracepoint_set_log_level_rule
          ⟨.ust, [42], Option.none, Option.none, []⟩ (.exactly 5)).1 = .ok ∧
      (lttng_event_rule_tracepoint_set_log_level_rule
          ⟨.ust, [42], Option.none, Option.none, []⟩
          (.exactly 5)).2.log_level_rule = some (.exactly 5))) :=
  ⟨(set_log_level_rule_domain_gate ⟨.ust, [42], Option.none, Option.none, []⟩
      (.exactly 5)).1,
   (set_log_level_rule_domain_gate ⟨.ust, [42], Option.none, Option.none, []⟩
      (.exactly 5)).2 (by decide) (by decide)⟩

/-- C5: on a user-space rule, `set_log_level_rule` returns INVALID
exactly when the level lies outside `[LTTNG_LOGLEVEL_EMERG ..
LTTNG_LOGLEVEL_DEBUG]`; on JUL, Log4j and Python rules every 32-bit
signed level is accepted with OK. -/
theorem set_log_level_rule_level_validation (r : TracepointRule)
    (llr : LogLevelRule) :
    (r.domain = .ust →
      ((lttng_event_rule_tracepoint_set_log_level_rule r llr).1 = .invalid ↔
        (llr.level < LTTNG_LOGLEVEL_EMERG ∨
         LTTNG_LOGLEVEL_DEBUG < llr.level))) ∧
    ((r.domain = .jul ∨ r.domain = .log4j ∨ r.domain = .python) →
      -2147483648 ≤ llr.level → llr.level < 2147483648 →
      (lttng_event_rule_tracepoint_set_log_level_rule r llr).1 = .ok) := by
  constructor
  · intro hdom
    unfold lttng_event_rule_tracepoint_set_log_level_rule
      domain_supports_log_levels log_level_rule_valid
      LTTNG_LOGLEVEL_EMERG LTTNG_LOGLEVEL_DEBUG
    rw [hdom]
    by_cases h1 : llr.level < 0
    · simp [h1]
    · by_cases h2 : (14 : Int) < llr.level
      · simp [h1, h2]
      · simp [h1, h2]
  · intro hdom _ _
    rcases hdom with h | h | h <;>
      simp [lttng_event_rule_tracepoint_set_log_level_rule,
        domain_supports_log_levels, log_level_rule_valid, h]

/-- C5 witness: on a user-space rule `exactly(15)` (above DEBUG = 14) is
INVALID, and on a JUL rule `exactly(-1980)` is accepted. -/
theorem set_log_level_rule_level_validation_witness :
    ((lttng_event_rule_tracepoint_set_log_level_rule
        ⟨.ust, [42], Option.none, Option.none, []⟩ (.exactly 15)).1 =
      .invalid) ∧
    ((lttng_event_rule_tracepoint_set_log_level_rule
        ⟨.jul, [42], Option.none, Option.none, []⟩ (.exactly (-1980))).1 =
      .ok) :=
  ⟨((set_log_level_rule_level_validation
      ⟨.ust, [42], Option.none, Option.none, []⟩ (.exactly 15)).1
      (by decide)).mpr (by decide),
   (set_log_level_rule_level_validation
      ⟨.jul, [42], Option.none, Option.none, []⟩ (.exactly (-1980))).2
      (by decide) (by decide) (by decide)⟩

/-- C9: the `--event-notifier-error-number-of-bucket` value is stored into
the daemon configuration exactly when `1 ≤ v ≤ 65534`; zero and values at
least 65535 are rejected with `-1` and leave the configuration untouched,
so the accepted bound lies in `[1, 65535)`. -/
theorem event_notifier_bucket_option_range (v config : Nat) :
    (1 ≤ v ∧ v ≤ 65534 →
      set_option_event_notifier_error_buckets v config = (0, v)) ∧
    (v = 0 ∨ 65535 ≤ v →
      set_option_event_notifier_error_buckets v config = (-1, config)) := by
  constructor
  · intro h
    unfold set_option_event_notifier_error_buckets
      EVENT_NOTIFIER_ERROR_COUNTER_NUMBER_OF_BUCKET_MAX
    rw [if_neg (by omega)]
  · intro h
    unfold set_option_event_notifier_error_buckets
      EVENT_NOTIFIER_ERROR_COUNTER_NUMBER_OF_BUCKET_MAX
    rw [if_pos (by omega)]

/-- C9 witness: 65534 is stored, 65535 is rejected, 0 is rejected (with
the configuration previously holding 128). -/
theorem event_notifier_bucket_option_range_witness :
    set_option_event_notifier_error_buckets 65534 128 = (0, 65534) ∧
    set_option_event_notifier_error_buckets 65535 128 = (-1, 128) ∧
    set_option_event_notifier_error_buckets 0 128 = (-1, 128) :=
  ⟨(event_notifier_bucket_option_range 65534 128).1 (by decide),
   (event_notifier_bucket_option_range 65535 128).2 (by decide),
   (event_notifier_bucket_option_range 0 128).2 (by decide)⟩

/-- C10: `get_exclusion_at_index` returns status OK for every index,
in range or not; an index at or past the exclusion count leaves the
caller's output untouched (`Option.none` in the model), so an
out-of-range access is indistinguishable from success by the status
alone. -/
theorem get_exclusion_at_index_out_of_range (r : TracepointRule)
    (index : Nat) :
    (lttng_event_rule_tracepoint_get_exclusion_at_index r index).1 = .ok ∧
    (r.exclusions.length ≤ index →
      (lttng_event_rule_tracepoint_get_exclusion_at_index r index).2 =
        Option.none) := by
  constructor
  · unfold lttng_event_rule_tracepoint_get_exclusion_at_index
    split <;> rfl
  · intro h
    unfold lttng_event_rule_tracepoint_get_exclusion_at_index
    rw [dif_neg (by omega)]

/-- C10 witness: index 5 on a rule with one exclusion returns OK and
leaves the output untouched. -/
theorem get_exclusion_at_index_out_of_range_witness :
    (lttng_event_rule_tracepoint_get_exclusion_at_index
        ⟨.ust, [42], Option.none, Option.none, [strBytes "x"]⟩ 5).1 = .ok ∧
    (lttng_event_rule_tracepoint_get_exclusion_at_index
        ⟨.ust, [42], Option.none, Option.none, [strBytes "x"]⟩ 5).2 =
      Option.none :=
  ⟨(get_exclusion_at_index_out_of_range
      ⟨.ust, [42], Option.none, Option.none, [strBytes "x"]⟩ 5).1,
   (get_exclusion_at_index_out_of_range
      ⟨.ust, [42], Option.none, Option.none, [strBytes "x"]⟩ 5).2 (by decide)⟩

/-- C6 counterexample: for the JUL rule with pattern `com.foo`, filter
`size > 10` and log level rule `at-least-as-severe-as(6)`, the composed
agent filter is not the claim's literal append
`(size > 10) && (logger_name == "com.foo") && (int_loglevel >= 6)`; the
source wraps the already-composed part in parentheses once more,
producing `((size > 10) && (logger_name == "com.foo")) && (int_loglevel
>= 6)`. -/
theorem generate_agent_filter_counterexample :
    generate_agent_filter
        ⟨.jul, strBytes "com.foo", some (strBytes "size > 10"),
         some (.atLeastAsSevereAs 6), []⟩ ≠
      some (strBytes
        "(size > 10) && (logger_name == \"com.foo\") && (int_loglevel >= 6)") ∧
    generate_agent_filter
        ⟨.jul, strBytes "com.foo", some (strBytes "size > 10"),
         some (.atLeastAsSevereAs 6), []⟩ =
      some (strBytes
        "((size > 10) && (logger_name == \"com.foo\")) && (int_loglevel >= 6)") := by
  constructor
  · decide
  · decide

/-- C6 (amended): for an agent-domain tracepoint rule the internal filter
is composed as `(<user-filter>) && (logger_name == "<pattern>")`; when a
log level rule is set the composition so far is wrapped once more, giving
`((<user-filter>) && (logger_name == "<pattern>")) && (int_loglevel <op>
<level>)`, with op `==` for `exactly` and `>=` for
`at-least-as-severe-as`; pattern `*` with no user filter yields only the
`int_loglevel` predicate, with no `logger_name` predicate. -/
theorem generate_agent_filter_composition (r : TracepointRule) :
    (∀ f, r.pattern ≠ strBytes "*" → r.filter_expression = some f →
      r.log_level_rule = Option.none →
      generate_agent_filter r =
        some (strBytes "(" ++ f ++ strBytes ") && (logger_name == \"" ++
              r.pattern ++ strBytes "\")")) ∧
    (∀ f llr, r.pattern ≠ strBytes "*" → r.filter_expression = some f →
      r.log_level_rule = some llr →
      generate_agent_filter r =
        some (strBytes "((" ++ f ++ strBytes ") && (logger_name == \"" ++
              r.pattern ++ strBytes "\")) && (int_loglevel " ++
              logLevelOpBytes llr ++ strBytes " " ++
              intDecBytes llr.level ++ strBytes ")")) ∧
    (∀ llr, r.pattern = strBytes "*" → r.filter_expression = Option.none →
      r.log_level_rule = some llr →
      generate_agent_filter r =
        some (strBytes "int_loglevel " ++ logLevelOpBytes llr ++
              strBytes " " ++ intDecBytes llr.level)) ∧
    (∀ v, logLevelOpBytes (.exactly v) = strBytes "==") ∧
    (∀ v, logLevelOpBytes (.atLeastAsSevereAs v) = strBytes ">=") := by
  refine ⟨?_, ?_, ?_, fun v => rfl, fun v => rfl⟩
  · intro f hpat hfo hlo
    unfold generate_agent_filter
    rw [hfo, hlo, if_neg hpat]
  · intro f llr hpat hfo hlo
    unfold generate_agent_filter
    rw [hfo, hlo, if_neg hpat]
    simp only [Option.some.injEq]
    simp [strBytes, List.append_assoc]
  · intro llr hpat hfo hlo
    unfold generate_agent_filter
    rw [hfo, hlo, if_pos hpat]

/-- C6 (amended) witness: the composition at the JUL rule with pattern
`com.foo`, filter `size > 10` and `at-least-as-severe-as(6)`. -/
theorem generate_agent_filter_composition_witness :
    (⟨.jul, strBytes "com.foo", some (strBytes "size > 10"),
      some (.atLeastAsSevereAs 6), []⟩ : TracepointRule).pattern ≠
        strBytes "*" ∧
    generate_agent_filter
        ⟨.jul, strBytes "com.foo", some (strBytes "size > 10"),
         some (.atLeastAsSevereAs 6), []⟩ =
      some (strBytes "((" ++ strBytes "size > 10" ++
            strBytes ") && (logger_name == \"" ++ strBytes "com.foo" ++
            strBytes "\")) && (int_loglevel " ++
            logLevelOpBytes (.atLeastAsSevereAs 6) ++ strBytes " " ++
            intDecBytes ((LogLevelRule.atLeastAsSevereAs 6).level) ++
            strBytes ")") :=
  ⟨by decide,
   (generate_agent_filter_composition
      ⟨.jul, strBytes "com.foo", some (strBytes "size > 10"),
       some (.atLeastAsSevereAs 6), []⟩).2.1 (strBytes "size > 10")
      (.atLeastAsSevereAs 6) (by decide) rfl rfl⟩

/-! ## Malformed-payload lemmas -/

theorem dec4At_header_1 (x a b c d e : Nat) (rest : List Nat)
    (h : a < 4294967296) :
    dec4At ((x :: (u32Bytes a ++ u32Bytes b ++ u32Bytes c ++ u32Bytes d ++
      u32Bytes e)) ++ rest) 1 = a := by
  have h0 : dec4At ((x :: (u32Bytes a ++ u32Bytes b ++ u32Bytes c ++
      u32Bytes d ++ u32Bytes e)) ++ rest) 1 =
      dec4 (a % 256) (a / 256 % 256) (a / 65536 % 256) (a / 16777216 % 256) :=
    rfl
  rw [h0]
  exact dec4_u32 a h

theorem dec4At_header_5 (x a b c d e : Nat) (rest : List Nat)
    (h : b < 4294967296) :
    dec4At ((x :: (u32Bytes a ++ u32Bytes b ++ u32Bytes c ++ u32Bytes d ++
      u32Bytes e)) ++ rest) 5 = b := by
  have h0 : dec4At ((x :: (u32Bytes a ++ u32Bytes b ++ u32Bytes c ++
      u32Bytes d ++ u32Bytes e)) ++ rest) 5 =
      dec4 (b % 256) (b / 256 % 256) (b / 65536 % 256) (b / 16777216 % 256) :=
    rfl
  rw [h0]
  exact dec4_u32 b h

theorem dec4At_header_9 (x a b c d e : Nat) (rest : List Nat)
    (h : c < 4294967296) :
    dec4At ((x :: (u32Bytes a ++ u32Bytes b ++ u32Bytes c ++ u32Bytes d ++
      u32Bytes e)) ++ rest) 9 = c := by
  have h0 : dec4At ((x :: (u32Bytes a ++ u32Bytes b ++ u32Bytes c ++
      u32Bytes d ++ u32Bytes e)) ++ rest) 9 =
      dec4 (c % 256) (c / 256 % 256) (c / 65536 % 256) (c / 16777216 % 256) :=
    rfl
  rw [h0]
  exact dec4_u32 c h

theorem dec4At_header_13 (x a b c d e : Nat) (rest : List Nat)
    (h : d < 4294967296) :
    dec4At ((x :: (u32Bytes a ++ u32Bytes b ++ u32Bytes c ++ u32Bytes d ++
      u32Bytes e)) ++ rest) 13 = d := by
  have h0 : dec4At ((x :: (u32Bytes a ++ u32Bytes b ++ u32Bytes c ++
      u32Bytes d ++ u32Bytes e)) ++ rest) 13 =
      dec4 (d % 256) (d / 256 % 256) (d / 65536 % 256) (d / 16777216 % 256) :=
    rfl
  rw [h0]
  exact dec4_u32 d h

/-- Stepping lemma: on a payload whose 21-byte header carries a valid
domain and the given field values, `create_from_payload` is the body
parse of the remaining bytes. -/
theorem create_from_payload_header (d : TracepointDomain) (a b c e f : Nat)
    (body : List Nat) (ha : a < 4294967296) (hb : b < 4294967296)
    (hc : c < 4294967296) (he : e < 4294967296) :
    lttng_event_rule_tracepoint_create_from_payload
        ((domainByte d :: (u32Bytes a ++ u32Bytes b ++ u32Bytes c ++
          u32Bytes e ++ u32Bytes f)) ++ body) =
      (match parseTracepointBody d a b c e body with
       | Option.none => Option.none
       | some (rule, rest4) => some (rule, (21 + body.length) - rest4.length)) := by
  unfold lttng_event_rule_tracepoint_create_from_payload
  rw [readBytes_append 21 _ _ (by simp [u32Bytes])]
  have hg : (domainByte d :: (u32Bytes a ++ u32Bytes b ++ u32Bytes c ++
      u32Bytes e ++ u32Bytes f)).getD 0 0 = domainByte d := rfl
  have h1 : dec4At (domainByte d :: (u32Bytes a ++ u32Bytes b ++
      u32Bytes c ++ u32Bytes e ++ u32Bytes f)) 1 = a := by
    have h0 : dec4At (domainByte d :: (u32Bytes a ++ u32Bytes b ++
        u32Bytes c ++ u32Bytes e ++ u32Bytes f)) 1 =
        dec4 (a % 256) (a / 256 % 256) (a / 65536 % 256)
          (a / 16777216 % 256) := rfl
    rw [h0]; exact dec4_u32 a ha
  have h5 : dec4At (domainByte d :: (u32Bytes a ++ u32Bytes b ++
      u32Bytes c ++ u32Bytes e ++ u32Bytes f)) 5 = b := by
    have h0 : dec4At (domainByte d :: (u32Bytes a ++ u32Bytes b ++
        u32Bytes c ++ u32Bytes e ++ u32Bytes f)) 5 =
        dec4 (b % 256) (b / 256 % 256) (b / 65536 % 256)
          (b / 16777216 % 256) := rfl
    rw [h0]; exact dec4_u32 b hb
  have h9 : dec4At (domainByte d :: (u32Bytes a ++ u32Bytes b ++
      u32Bytes c ++ u32Bytes e ++ u32Bytes f)) 9 = c := by
    have h0 : dec4At (domainByte d :: (u32Bytes a ++ u32Bytes b ++
        u32Bytes c ++ u32Bytes e ++ u32Bytes f)) 9 =
        dec4 (c % 256) (c / 256 % 256) (c / 65536 % 256)
          (c / 16777216 % 256) := rfl
    rw [h0]; exact dec4_u32 c hc
  have h13 : dec4At (domainByte d :: (u32Bytes a ++ u32Bytes b ++
      u32Bytes c ++ u32Bytes e ++ u32Bytes f)) 13 = e := by
    have h0 : dec4At (domainByte d :: (u32Bytes a ++ u32Bytes b ++
        u32Bytes c ++ u32Bytes e ++ u32Bytes f)) 13 =
        dec4 (e % 256) (e / 256 % 256) (e / 65536 % 256)
          (e / 16777216 % 256) := rfl
    rw [h0]; exact dec4_u32 e he
  have hlen : ((domainByte d :: (u32Bytes a ++ u32Bytes b ++ u32Bytes c ++
      u32Bytes e ++ u32Bytes f)) ++ body).length = 21 + body.length := by
    simp [u32Bytes]
    omega
  simp only [hg, domainOfByte_domainByte, h1, h5, h9, h13, hlen]

theorem parseCString_short (len : Nat) (l : List Nat) (h : l.length < len) :
    parseCString len l = Option.none := by
  unfold parseCString
  rw [readBytes_short len l h]

theorem parseCString_noNul (len : Nat) (l : List Nat) (h : len ≤ l.length)
    (h2 : containsString (l.take len) len = false) :
    parseCString len l = Option.none := by
  unfold parseCString readBytes
  rw [if_pos h]
  simp [h2]

theorem parseOptCString_short (len : Nat) (l : List Nat) (h0 : len ≠ 0)
    (h : l.length < len) : parseOptCString len l = Option.none := by
  unfold parseOptCString
  rw [if_neg h0, parseCString_short len l h]

theorem parseOptCString_noNul (len : Nat) (l : List Nat) (h0 : len ≠ 0)
    (h : len ≤ l.length) (h2 : containsString (l.take len) len = false) :
    parseOptCString len l = Option.none := by
  unfold parseOptCString
  rw [if_neg h0, parseCString_noNul len l h h2]

theorem parseLogLevelRuleField_short (len : Nat) (l : List Nat)
    (h0 : len ≠ 0) (h : l.length < len) :
    parseLogLevelRuleField len l = Option.none := by
  unfold parseLogLevelRuleField
  rw [if_neg h0, readBytes_short len l h]

theorem parseExclusions_header_short (d : TracepointDomain) (n : Nat)
    (l : List Nat) (h : l.length < 4) :
    parseExclusions d (n + 1) l = Option.none := by
  unfold parseExclusions
  rw [readBytes_short 4 l h]

theorem parseExclusions_name_short (d : TracepointDomain) (n : Nat)
    (xlen : Nat) (tail : List Nat) (hx : xlen < 4294967296)
    (h : tail.length < xlen) :
    parseExclusions d (n + 1) (u32Bytes xlen ++ tail) = Option.none := by
  unfold parseExclusions
  rw [readBytes_append 4 _ _ (by simp [u32Bytes])]
  simp only [dec4At_u32Bytes_self xlen hx, parseCString_short xlen tail h]

theorem parseExclusions_name_noNul (d : TracepointDomain) (n : Nat)
    (xlen : Nat) (tail : List Nat) (hx : xlen < 4294967296)
    (h : xlen ≤ tail.length)
    (h2 : containsString (tail.take xlen) xlen = false) :
    parseExclusions d (n + 1) (u32Bytes xlen ++ tail) = Option.none := by
  unfold parseExclusions
  rw [readBytes_append 4 _ _ (by simp [u32Bytes])]
  simp only [dec4At_u32Bytes_self xlen hx, parseCString_noNul xlen tail h h2]

theorem parseTracepointBody_pattern_fail (d : TracepointDomain)
    (pl fl ll cnt : Nat) (rest0 : List Nat)
    (h : parseCString pl rest0 = Option.none) :
    parseTracepointBody d pl fl ll cnt rest0 = Option.none := by
  unfold parseTracepointBody
  rw [h]

theorem parseTracepointBody_filter_fail (d : TracepointDomain)
    (pl fl ll cnt : Nat) (rest0 p rest1 : List Nat)
    (hp : parseCString pl rest0 = some (p, rest1))
    (h : parseOptCString fl rest1 = Option.none) :
    parseTracepointBody d pl fl ll cnt rest0 = Option.none := by
  unfold parseTracepointBody
  rw [hp]
  simp only [h]

theorem parseTracepointBody_llr_fail (d : TracepointDomain)
    (pl fl ll cnt : Nat) (rest0 p rest1 : List Nat)
    (fo : Option (List Nat)) (rest2 : List Nat)
    (hp : parseCString pl rest0 = some (p, rest1))
    (hf : parseOptCString fl rest1 = some (fo, rest2))
    (h : parseLogLevelRuleField ll rest2 = Option.none) :
    parseTracepointBody d pl fl ll cnt rest0 = Option.none := by
  unfold parseTracepointBody
  rw [hp]
  simp only [hf, h]

theorem parseTracepointBody_excl_fail (d : TracepointDomain)
    (pl fl ll cnt : Nat) (rest0 p rest1 : List Nat)
    (fo : Option (List Nat)) (rest2 : List Nat)
    (lo : Option LogLevelRule) (rest3 : List Nat)
    (hp : parseCString pl rest0 = some (p, rest1))
    (hf : parseOptCString fl rest1 = some (fo, rest2))
    (hl : parseLogLevelRuleField ll rest2 = some (lo, rest3))
    (h : parseExclusions d cnt rest3 = Option.none) :
    parseTracepointBody d pl fl ll cnt rest0 = Option.none := by
  unfold parseTracepointBody
  rw [hp]
  simp only [hf, hl, h]

theorem create_from_payload_body_fail (d : TracepointDomain)
    (a b c e f : Nat) (body : List Nat) (ha : a < 4294967296)
    (hb : b < 4294967296) (hc : c < 4294967296) (he : e < 4294967296)
    (h : parseTracepointBody d a b c e body = Option.none) :
    lttng_event_rule_tracepoint_create_from_payload
        ((domainByte d :: (u32Bytes a ++ u32Bytes b ++ u32Bytes c ++
          u32Bytes e ++ u32Bytes f)) ++ body) = Option.none := by
  rw [create_from_payload_header d a b c e f body ha hb hc he]
  simp [h]

/-- C7: tracepoint deserialization rejects every malformed payload with
an error and produces no rule: a buffer shorter than the fixed 21-byte
comm structure; an `int8_t` domain value outside `(NONE, PYTHON]`; a
pattern, filter, log-level-rule or exclusion length field that exceeds
the remaining payload; and a pattern, filter or exclusion region that is
not NUL-terminated within its declared length. -/
theorem create_from_payload_rejects_malformed :
    (∀ buf : List Nat, buf.length < 21 →
      lttng_event_rule_tracepoint_create_from_payload buf = Option.none) ∧
    (∀ b : Nat, ∀ rest : List Nat,
      int8OfByte b ≤ 0 ∨ 5 < int8OfByte b →
      lttng_event_rule_tracepoint_create_from_payload (b :: rest) =
        Option.none) ∧
    (∀ d : TracepointDomain, ∀ pl fl ll cnt el : Nat, ∀ body : List Nat,
      pl < 4294967296 → fl < 4294967296 → ll < 4294967296 →
      cnt < 4294967296 → body.length < pl →
      lttng_event_rule_tracepoint_create_from_payload
        ((domainByte d :: (u32Bytes pl ++ u32Bytes fl ++ u32Bytes ll ++
          u32Bytes cnt ++ u32Bytes el)) ++ body) = Option.none) ∧
    (∀ d : TracepointDomain, ∀ pl fl ll cnt el : Nat, ∀ body : List Nat,
      pl < 4294967296 → fl < 4294967296 → ll < 4294967296 →
      cnt < 4294967296 → pl ≤ body.length →
      containsString (body.take pl) pl = false →
      lttng_event_rule_tracepoint_create_from_payload
        ((domainByte d :: (u32Bytes pl ++ u32Bytes fl ++ u32Bytes ll ++
          u32Bytes cnt ++ u32Bytes el)) ++ body) = Option.none) ∧
    (∀ d : TracepointDomain, ∀ fl ll cnt el : Nat,
     ∀ p body2 : List Nat, (∀ x ∈ p, x ≠ 0) →
      fl ≠ 0 → fl < 4294967296 → ll < 4294967296 → cnt < 4294967296 →
      p.length + 1 < 4294967296 → body2.length < fl →
      lttng_event_rule_tracepoint_create_from_payload
        ((domainByte d :: (u32Bytes (p.length + 1) ++ u32Bytes fl ++
          u32Bytes ll ++ u32Bytes cnt ++ u32Bytes el)) ++
         ((p ++ [0]) ++ body2)) = Option.none) ∧
    (∀ d : TracepointDomain, ∀ fl ll cnt el : Nat,
     ∀ p body2 : List Nat, (∀ x ∈ p, x ≠ 0) →
      fl ≠ 0 → fl < 4294967296 → ll < 4294967296 → cnt < 4294967296 →
      p.length + 1 < 4294967296 → fl ≤ body2.length →
      containsString (body2.take fl) fl = false →
      lttng_event_rule_tracepoint_create_from_payload
        ((domainByte d :: (u32Bytes (p.length + 1) ++ u32Bytes fl ++
          u32Bytes ll ++ u32Bytes cnt ++ u32Bytes el)) ++
         ((p ++ [0]) ++ body2)) = Option.none) ∧
    (∀ d : TracepointDomain, ∀ ll cnt el : Nat,
     ∀ p body2 : List Nat, (∀ x ∈ p, x ≠ 0) →
      ll ≠ 0 → ll < 4294967296 → cnt < 4294967296 →
      p.length + 1 < 4294967296 → body2.length < ll →
      lttng_event_rule_tracepoint_create_from_payload
        ((domainByte d :: (u32Bytes (p.length + 1) ++ u32Bytes 0 ++
          u32Bytes ll ++ u32Bytes cnt ++ u32Bytes el)) ++
         ((p ++ [0]) ++ body2)) = Option.none) ∧
    (∀ d : TracepointDomain, ∀ n el : Nat,
     ∀ p body2 : List Nat, (∀ x ∈ p, x ≠ 0) →
      n + 1 < 4294967296 → p.length + 1 < 4294967296 → body2.length < 4 →
      lttng_event_rule_tracepoint_create_from_payload
        ((domainByte d :: (u32Bytes (p.length + 1) ++ u32Bytes 0 ++
          u32Bytes 0 ++ u32Bytes (n + 1) ++ u32Bytes el)) ++
         ((p ++ [0]) ++ body2)) = Option.none) ∧
    (∀ d : TracepointDomain, ∀ n el xlen : Nat,
     ∀ p tail : List Nat, (∀ x ∈ p, x ≠ 0) →
      n + 1 < 4294967296 → p.length + 1 < 4294967296 →
      xlen < 4294967296 → tail.length < xlen →
      lttng_event_rule_tracepoint_create_from_payload
        ((domainByte d :: (u32Bytes (p.length + 1) ++ u32Bytes 0 ++
          u32Bytes 0 ++ u32Bytes (n + 1) ++ u32Bytes el)) ++
         ((p ++ [0]) ++ (u32Bytes xlen ++ tail))) = Option.none) ∧
    (∀ d : TracepointDomain, ∀ n el xlen : Nat,
     ∀ p tail : List Nat, (∀ x ∈ p, x ≠ 0) →
      n + 1 < 4294967296 → p.length + 1 < 4294967296 →
      xlen < 4294967296 → xlen ≤ tail.length →
      containsString (tail.take xlen) xlen = false →
      lttng_event_rule_tracepoint_create_from_payload
        ((domainByte d :: (u32Bytes (p.length + 1) ++ u32Bytes 0 ++
          u32Bytes 0 ++ u32Bytes (n + 1) ++ u32Bytes el)) ++
         ((p ++ [0]) ++ (u32Bytes xlen ++ tail))) = Option.none) := by
  refine ⟨?_, ?_, ?_, ?_, ?_, ?_, ?_, ?_, ?_, ?_⟩
  · intro buf h
    unfold lttng_event_rule_tracepoint_create_from_payload
    rw [readBytes_short 21 buf h]
  · intro b rest h
    by_cases hlen : 21 ≤ (b :: rest).length
    · unfold lttng_event_rule_tracepoint_create_from_payload readBytes
      rw [if_pos hlen]
      have hd : ((b :: rest).take 21).getD 0 0 = b := rfl
      have hdo : domainOfByte b = Option.none := by
        unfold domainOfByte
        rw [if_pos h]
      simp only [hd, hdo]
    · unfold lttng_event_rule_tracepoint_create_from_payload
      rw [readBytes_short 21 _ (by omega)]
  · intro d pl fl ll cnt el body hpl hfl hll hcnt hexceed
    exact create_from_payload_body_fail d pl fl ll cnt el body hpl hfl hll
      hcnt (parseTracepointBody_pattern_fail d pl fl ll cnt body
        (parseCString_short pl body hexceed))
  · intro d pl fl ll cnt el body hpl hfl hll hcnt hle hnul
    exact create_from_payload_body_fail d pl fl ll cnt el body hpl hfl hll
      hcnt (parseTracepointBody_pattern_fail d pl fl ll cnt body
        (parseCString_noNul pl body hle hnul))
  · intro d fl ll cnt el p body2 hp hfl0 hfl hll hcnt hpl hexceed
    exact create_from_payload_body_fail d (p.length + 1) fl ll cnt el _ hpl
      hfl hll hcnt (parseTracepointBody_filter_fail d _ fl ll cnt _ p body2
        (parseCString_append p body2 hp)
        (parseOptCString_short fl body2 hfl0 hexceed))
  · intro d fl ll cnt el p body2 hp hfl0 hfl hll hcnt hpl hle hnul
    exact create_from_payload_body_fail d (p.length + 1) fl ll cnt el _ hpl
      hfl hll hcnt (parseTracepointBody_filter_fail d _ fl ll cnt _ p body2
        (parseCString_append p body2 hp)
        (parseOptCString_noNul fl body2 hfl0 hle hnul))
  · intro d ll cnt el p body2 hp hll0 hll hcnt hpl hexceed
    exact create_from_payload_body_fail d (p.length + 1) 0 ll cnt el _ hpl
      (by omega) hll hcnt (parseTracepointBody_llr_fail d _ 0 ll cnt _ p
        body2 Option.none body2 (parseCString_append p body2 hp)
        (parseOptCString_zero body2)
        (parseLogLevelRuleField_short ll body2 hll0 hexceed))
  · intro d n el p body2 hp hn hpl hshort
    exact create_from_payload_body_fail d (p.length + 1) 0 0 (n + 1) el _
      hpl (by omega) (by omega) hn
      (parseTracepointBody_excl_fail d _ 0 0 (n + 1) _ p body2 Option.none
        body2 Option.none body2 (parseCString_append p body2 hp)
        (parseOptCString_zero body2) (parseLogLevelRuleField_none body2)
        (parseExclusions_header_short d n body2 hshort))
  · intro d n el xlen p tail hp hn hpl hx hexceed
    exact create_from_payload_body_fail d (p.length + 1) 0 0 (n + 1) el _
      hpl (by omega) (by omega) hn
      (parseTracepointBody_excl_fail d _ 0 0 (n + 1) _ p _ Option.none _
        Option.none _ (parseCString_append p _ hp)
        (parseOptCString_zero _) (parseLogLevelRuleField_none _)
        (parseExclusions_name_short d n xlen tail hx hexceed))
  · intro d n el xlen p tail hp hn hpl hx hle hnul
    exact create_from_payload_body_fail d (p.length + 1) 0 0 (n + 1) el _
      hpl (by omega) (by omega) hn
      (parseTracepointBody_excl_fail d _ 0 0 (n + 1) _ p _ Option.none _
        Option.none _ (parseCString_append p _ hp)
        (parseOptCString_zero _) (parseLogLevelRuleField_none _)
        (parseExclusions_name_noNul d n xlen tail hx hle hnul))

/-- C7 witness: the ten rejection branches at concrete payloads — a
3-byte buffer, a zero domain byte, a pattern length past the end, a
pattern with no NUL, a filter length past the end, a filter with no NUL,
a log-level-rule length past the end, a truncated exclusion length
field, an exclusion length past the end, and an exclusion with no NUL. -/
theorem create_from_payload_rejects_malformed_witness :
    lttng_event_rule_tracepoint_create_from_payload [1, 2, 3] =
      Option.none ∧
    lttng_event_rule_tracepoint_create_from_payload
      (0 :: List.replicate 25 7) = Option.none ∧
    lttng_event_rule_tracepoint_create_from_payload
      ((domainByte .kernel :: (u32Bytes 10 ++ u32Bytes 0 ++ u32Bytes 0 ++
        u32Bytes 0 ++ u32Bytes 0)) ++ []) = Option.none ∧
    lttng_event_rule_tracepoint_create_from_payload
      ((domainByte .kernel :: (u32Bytes 3 ++ u32Bytes 0 ++ u32Bytes 0 ++
        u32Bytes 0 ++ u32Bytes 0)) ++ [65, 65, 65]) = Option.none ∧
    lttng_event_rule_tracepoint_create_from_payload
      ((domainByte .ust :: (u32Bytes ([65].length + 1) ++ u32Bytes 9 ++
        u32Bytes 0 ++ u32Bytes 0 ++ u32Bytes 0)) ++
       (([65] ++ [0]) ++ [])) = Option.none ∧
    lttng_event_rule_tracepoint_create_from_payload
      ((domainByte .ust :: (u32Bytes ([65].length + 1) ++ u32Bytes 2 ++
        u32Bytes 0 ++ u32Bytes 0 ++ u32Bytes 0)) ++
       (([65] ++ [0]) ++ [66, 67])) = Option.none ∧
    lttng_event_rule_tracepoint_create_from_payload
      ((domainByte .ust :: (u32Bytes ([65].length + 1) ++ u32Bytes 0 ++
        u32Bytes 9 ++ u32Bytes 0 ++ u32Bytes 0)) ++
       (([65] ++ [0]) ++ [])) = Option.none ∧
    lttng_event_rule_tracepoint_create_from_payload
      ((domainByte .ust :: (u32Bytes ([65].length + 1) ++ u32Bytes 0 ++
        u32Bytes 0 ++ u32Bytes (0 + 1) ++ u32Bytes 0)) ++
       (([65] ++ [0]) ++ [1, 2])) = Option.none ∧
    lttng_event_rule_tracepoint_create_from_payload
      ((domainByte .ust :: (u32Bytes ([65].length + 1) ++ u32Bytes 0 ++
        u32Bytes 0 ++ u32Bytes (0 + 1) ++ u32Bytes 0)) ++
       (([65] ++ [0]) ++ (u32Bytes 9 ++ []))) = Option.none ∧
    lttng_event_rule_tracepoint_create_from_payload
      ((domainByte .ust :: (u32Bytes ([65].length + 1) ++ u32Bytes 0 ++
        u32Bytes 0 ++ u32Bytes (0 + 1) ++ u32Bytes 0)) ++
       (([65] ++ [0]) ++ (u32Bytes 2 ++ [66, 67]))) = Option.none :=
  ⟨create_from_payload_rejects_malformed.1 [1, 2, 3] (by decide),
   create_from_payload_rejects_malformed.2.1 0 (List.replicate 25 7)
     (by decide),
   create_from_payload_rejects_malformed.2.2.1 .kernel 10 0 0 0 0 []
     (by decide) (by decide) (by decide) (by decide) (by decide),
   create_from_payload_rejects_malformed.2.2.2.1 .kernel 3 0 0 0 0
     [65, 65, 65] (by decide) (by decide) (by decide) (by decide)
     (by decide) (by decide),
   create_from_payload_rejects_malformed.2.2.2.2.1 .ust 9 0 0 0 [65] []
     (by decide) (by decide) (by decide) (by decide) (by decide)
     (by decide) (by decide),
   create_from_payload_rejects_malformed.2.2.2.2.2.1 .ust 2 0 0 0 [65]
     [66, 67] (by decide) (by decide) (by decide) (by decide) (by decide)
     (by decide) (by decide) (by decide),
   create_from_payload_rejects_malformed.2.2.2.2.2.2.1 .ust 9 0 0 [65] []
     (by decide) (by decide) (by decide) (by decide) (by decide)
     (by decide),
   create_from_payload_rejects_malformed.2.2.2.2.2.2.2.1 .ust 0 0 [65]
     [1, 2] (by decide) (by decide) (by decide) (by decide),
   create_from_payload_rejects_malformed.2.2.2.2.2.2.2.2.1 .ust 0 0 9 [65]
     [] (by decide) (by decide) (by decide) (by decide) (by decide),
   create_from_payload_rejects_malformed.2.2.2.2.2.2.2.2.2 .ust 0 0 2 [65]
     [66, 67] (by decide) (by decide) (by decide) (by decide) (by decide)
     (by decide)⟩

/-- C8: event-rule serialization emits the one-byte type tag
(`LTTNG_EVENT_RULE_TYPE_TRACEPOINT` = 0) followed by the variant body;
the tracepoint body is the packed comm header `{int8 domain, pattern_len,
filter_expression_len, log_level_rule_len, exclusions_count,
exclusions_len}` followed by the pattern with its NUL, the filter with
its NUL (absent when unset), the log-level-rule blob, then per exclusion
a `uint32_t` length and the NUL-terminated name; and the emitted
`log_level_rule_len` field (back-patched by the source after the blob is
written) decodes to exactly the blob's length, the other length fields
decoding to their declared values likewise. -/
theorem event_rule_serialize_layout (r : TracepointRule)
    (h1 : r.pattern.length + 1 < 4294967296)
    (h5 : filterExpressionLen r.filter_expression < 4294967296)
    (h13 : r.exclusions.length < 4294967296)
    (h17 : exclusionsLen r.exclusions < 4294967296) :
    lttng_event_rule_serialize_tracepoint r =
      0 :: ((domainByte r.domain ::
        (u32Bytes (r.pattern.length + 1) ++
         u32Bytes (filterExpressionLen r.filter_expression) ++
         u32Bytes (lttng_log_level_rule_serialize r.log_level_rule).length ++
         u32Bytes r.exclusions.length ++
         u32Bytes (exclusionsLen r.exclusions))) ++
        ((r.pattern ++ [0]) ++
         (filterChunk r.filter_expression ++
          (lttng_log_level_rule_serialize r.log_level_rule ++
           exclChunk r.exclusions)))) ∧
    dec4At (lttng_event_rule_tracepoint_serialize r) 1 =
      r.pattern.length + 1 ∧
    dec4At (lttng_event_rule_tracepoint_serialize r) 5 =
      filterExpressionLen r.filter_expression ∧
    dec4At (lttng_event_rule_tracepoint_serialize r) 9 =
      (lttng_log_level_rule_serialize r.log_level_rule).length ∧
    dec4At (lttng_event_rule_tracepoint_serialize r) 13 =
      r.exclusions.length ∧
    dec4At (lttng_event_rule_tracepoint_serialize r) 17 =
      exclusionsLen r.exclusions := by
  refine ⟨rfl, ?_, ?_, ?_, ?_, ?_⟩
  · have h0 : dec4At (lttng_event_rule_tracepoint_serialize r) 1 =
        dec4 ((r.pattern.length + 1) % 256)
          ((r.pattern.length + 1) / 256 % 256)
          ((r.pattern.length + 1) / 65536 % 256)
          ((r.pattern.length + 1) / 16777216 % 256) := rfl
    rw [h0]; exact dec4_u32 _ h1
  · have h0 : dec4At (lttng_event_rule_tracepoint_serialize r) 5 =
        dec4 (filterExpressionLen r.filter_expression % 256)
          (filterExpressionLen r.filter_expression / 256 % 256)
          (filterExpressionLen r.filter_expression / 65536 % 256)
          (filterExpressionLen r.filter_expression / 16777216 % 256) := rfl
    rw [h0]; exact dec4_u32 _ h5
  · have h0 : dec4At (lttng_event_rule_tracepoint_serialize r) 9 =
        dec4 ((lttng_log_level_rule_serialize r.log_level_rule).length % 256)
          ((lttng_log_level_rule_serialize r.log_level_rule).length / 256 % 256)
          ((lttng_log_level_rule_serialize r.log_level_rule).length / 65536 % 256)
          ((lttng_log_level_rule_serialize r.log_level_rule).length / 16777216 % 256) :=
      rfl
    rw [h0]; exact dec4_u32 _ (llr_blob_length_lt r.log_level_rule)
  · have h0 : dec4At (lttng_event_rule_tracepoint_serialize r) 13 =
        dec4 (r.exclusions.length % 256) (r.exclusions.length / 256 % 256)
          (r.exclusions.length / 65536 % 256)
          (r.exclusions.length / 16777216 % 256) := rfl
    rw [h0]; exact dec4_u32 _ h13
  · have h0 : dec4At (lttng_event_rule_tracepoint_serialize r) 17 =
        dec4 (exclusionsLen r.exclusions % 256)
          (exclusionsLen r.exclusions / 256 % 256)
          (exclusionsLen r.exclusions / 65536 % 256)
          (exclusionsLen r.exclusions / 16777216 % 256) := rfl
    rw [h0]; exact dec4_u32 _ h17

/-- C8 witness: the layout at the spec's example user-space rule. -/
theorem event_rule_serialize_layout_witness :
    lttng_event_rule_serialize_tracepoint
        ⟨.ust, strBytes "my_event_*",
         some (strBytes "msg_id == 23 && size >= 2048"),
         some (.exactly 6), [strBytes "my_event_test1"]⟩ =
      0 :: ((domainByte TracepointDomain.ust ::
        (u32Bytes ((strBytes "my_event_*").length + 1) ++
         u32Bytes (filterExpressionLen
           (some (strBytes "msg_id == 23 && size >= 2048"))) ++
         u32Bytes (lttng_log_level_rule_serialize
           (some (.exactly 6))).length ++
         u32Bytes ([strBytes "my_event_test1"].length) ++
         u32Bytes (exclusionsLen [strBytes "my_event_test1"]))) ++
        ((strBytes "my_event_*" ++ [0]) ++
         (filterChunk (some (strBytes "msg_id == 23 && size >= 2048")) ++
          (lttng_log_level_rule_serialize (some (.exactly 6)) ++
           exclChunk [strBytes "my_event_test1"])))) ∧
    dec4At (lttng_event_rule_tracepoint_serialize
        ⟨.ust, strBytes "my_event_*",
         some (strBytes "msg_id == 23 && size >= 2048"),
         some (.exactly 6), [strBytes "my_event_test1"]⟩) 9 = 5 :=
  ⟨(event_rule_serialize_layout
      ⟨.ust, strBytes "my_event_*",
       some (strBytes "msg_id == 23 && size >= 2048"),
       some (.exactly 6), [strBytes "my_event_test1"]⟩
      (by decide) (by decide) (by decide) (by decide)).1,
   by
    rw [(event_rule_serialize_layout
      ⟨.ust, strBytes "my_event_*",
       some (strBytes "msg_id == 23 && size >= 2048"),
       some (.exactly 6), [strBytes "my_event_test1"]⟩
      (by decide) (by decide) (by decide) (by decide)).2.2.2.1]
    decide⟩
